import Mathlib

/-!
# dbus_modbustcp: request dispatcher and diagnostics service registry

A shallow embedding of `src/backend.cpp`, `src/dbus_service.cpp` and
`src/diagnostics_service.cpp`.

* A slot of `Backend` is a function from the object it is called with to the
  record of what it emitted (`modbusReply`, `mappingRequest`, `qCritical`) and
  the state the object is left in.
* Machine integers are `Nat` or `Int`; a getter reduces its field to the width of
  the C++ variable the source reads it into.
* Pointers to an `ADU` are replaced by the value the pointer refers to at that
  moment; a null `VeQItem *` is `none`.
* The registry (`Services/...`) and the last error (`LastError/...`) of the
  diagnostics service are two states, since no slot touches both.  Time is a
  clock in milliseconds, and the single-shot timer fires when the clock reaches
  its deadline.
-/

/-! ## Qt containers -/

/-- A `QByteArray`: a finite sequence of bytes. -/
abbrev QByteArray := List Nat

/-- Qt library function `QByteArray::remove(pos, len)`: nothing happens when
`len` is zero or `pos` is not an index of the array; the array is cut at `pos`
when fewer than `len` bytes follow; otherwise the `len` bytes from `pos` on are
taken out. -/
def QByteArray.remove (a : QByteArray) (pos len : Nat) : QByteArray :=
  if len = 0 ∨ a.length ≤ pos then a
  else if a.length - pos ≤ len then a.take pos
  else a.take pos ++ a.drop (pos + len)

/-! ## Protocol data unit -/

namespace PDU

/-- Modelled from the spec: the function codes of `pdu.h` (not in src/), with
the standard Modbus numeric values. -/
def ReadHoldingRegisters : Nat := 3

/-- Modelled from the spec: see `ReadHoldingRegisters`. -/
def ReadInputRegisters : Nat := 4

/-- Modelled from the spec: see `ReadHoldingRegisters`. -/
def WriteSingleRegister : Nat := 6

/-- Modelled from the spec: see `ReadHoldingRegisters`. -/
def WriteMultipleRegisters : Nat := 16

/-- Modelled from the spec: the enumeration `PDU::ExceptionCode` of `pdu.h`
(not in src/), with the enumerators that `backend.cpp` uses, spelled as there. -/
inductive ExceptionCode where
  | NoExeption
  | IllegalFunction
  | IllegalDataAddress
  | IllegalDataValue
  | GatewayPathUnavailable
  | GatewayTargetDeviceFailedToRespond
  deriving DecidableEq, Repr

end PDU

/-- Modelled from the spec: the request/reply unit of `adu.h` (not in src/), as
far as `backend.cpp` reads and writes it.  `peerAddress` is the text of
`getSocket()->peerAddress().toString()`. -/
structure ADU where
  mFunctionCode : Nat
  mAddres : Nat
  mUnitID : Nat
  mQuantity : Nat
  mByteCount : Nat
  mData : QByteArray
  mExceptionCode : PDU.ExceptionCode
  mReplyData : QByteArray
  peerAddress : String
  deriving DecidableEq, Repr

namespace ADU

/-- The function code, as read into `uint functionCode`. -/
def getFunctionCode (a : ADU) : Nat := a.mFunctionCode % 2 ^ 32

/-- The start address, as read into `quint16 address`. -/
def getAddres (a : ADU) : Nat := a.mAddres % 2 ^ 16

/-- The unit id, as read into `uint unitID`. -/
def getUnitID (a : ADU) : Nat := a.mUnitID % 2 ^ 32

/-- The register quantity, as read into `quint16 quantity`. -/
def getQuantity (a : ADU) : Nat := a.mQuantity % 2 ^ 16

/-- The declared byte count, as read into `quint8 byteCount`. -/
def getByteCount (a : ADU) : Nat := a.mByteCount % 2 ^ 8

/-- The request payload. -/
def getData (a : ADU) : QByteArray := a.mData

/-- Setter of the exception code. -/
def setExceptionCode (a : ADU) (c : PDU.ExceptionCode) : ADU :=
  { a with mExceptionCode := c }

/-- Setter of the reply payload. -/
def setReplyData (a : ADU) (d : QByteArray) : ADU :=
  { a with mReplyData := d }

end ADU

/-! ## Mapping request -/

/-- Modelled from the spec: the operation kind of a mapping request
(`mapping_request.h`, not in src/). -/
inductive MappingRequestType where
  | ReadValues
  | WriteValues
  deriving DecidableEq, Repr

/-- Modelled from the spec: the enumeration `MappingErrors` of
`mapping_request.h` (not in src/).  `outOfTable v` is a value `v` of the
underlying integer type that is none of the enumerators. -/
inductive MappingErrors where
  | NoError
  | StartAddressError
  | AddressError
  | QuantityError
  | UnitIdError
  | ServiceError
  | PermissionError
  | outOfTable (v : Int)
  deriving DecidableEq, Repr

/-- Modelled from the spec: `BackendRequest` of `backend_request.h` (not in
src/): a mapping request together with the ADU it was made for.  `data` is the
one byte array behind `data()`: the write payload on submission, the result on
completion. -/
structure BackendRequest where
  adu : ADU
  type : MappingRequestType
  address : Nat
  unitId : Nat
  quantity : Nat
  data : QByteArray
  error : MappingErrors
  errorString : String
  deriving DecidableEq, Repr

/-- The constructor `BackendRequest(adu, type, address, unitId, quantity)`: no
data, no error. -/
def BackendRequest.new (adu : ADU) (type : MappingRequestType)
    (address unitId quantity : Nat) : BackendRequest :=
  { adu := adu, type := type, address := address, unitId := unitId,
    quantity := quantity, data := [], error := MappingErrors.NoError,
    errorString := "" }

/-! ## Backend -/

namespace Backend

/-- What one call of a `Backend` slot did: the ADU as the call leaves it, the
ADUs passed to `emit modbusReply`, the requests passed to `emit mappingRequest`
and the lines written to `qCritical()`, each in order. -/
structure Emitted where
  adu : ADU
  modbusReply : List ADU
  mappingRequest : List BackendRequest
  qCritical : List String
  deriving DecidableEq, Repr

/-- `Backend::logError`: the line written to `qCritical()`. -/
def logError (message : String) (request : ADU) : String :=
  "Error processing function code " ++ toString request.getFunctionCode ++
  ", unit id " ++ toString request.getUnitID ++
  ", start address " ++ toString request.getAddres ++
  ", quantity " ++ toString request.getQuantity ++
  ", src " ++ request.peerAddress ++ ": " ++ message

/-- `Backend::modbusRequest`. -/
def modbusRequest (modbusRequest : ADU) : Emitted :=
  let functionCode := modbusRequest.getFunctionCode
  let address := modbusRequest.getAddres
  let unitID := modbusRequest.getUnitID
  if functionCode = PDU.ReadHoldingRegisters ∨ functionCode = PDU.ReadInputRegisters then
    let quantity := modbusRequest.getQuantity
    if quantity = 0 ∨ quantity > 125 then
      let line := logError "Requested quantity invalid for this function" modbusRequest
      let adu := modbusRequest.setExceptionCode PDU.ExceptionCode.IllegalDataValue
      { adu := adu, modbusReply := [adu], mappingRequest := [], qCritical := [line] }
    else
      let r := BackendRequest.new modbusRequest MappingRequestType.ReadValues
        address unitID quantity
      { adu := modbusRequest, modbusReply := [], mappingRequest := [r], qCritical := [] }
  else if functionCode = PDU.WriteSingleRegister then
    let r := BackendRequest.new modbusRequest MappingRequestType.WriteValues
      address unitID 1
    let r := { r with data := modbusRequest.getData }
    let r := { r with data := r.data.remove 0 2 }
    { adu := modbusRequest, modbusReply := [], mappingRequest := [r], qCritical := [] }
  else if functionCode = PDU.WriteMultipleRegisters then
    let quantity := modbusRequest.getQuantity
    let byteCount := modbusRequest.getByteCount
    if (quantity = 0 ∨ quantity > 125) ∨ byteCount ≠ quantity * 2 then
      let line := logError "Requested quantity invalid for this function" modbusRequest
      let adu := modbusRequest.setExceptionCode PDU.ExceptionCode.IllegalDataValue
      { adu := adu, modbusReply := [adu], mappingRequest := [], qCritical := [line] }
    else
      let r := BackendRequest.new modbusRequest MappingRequestType.WriteValues
        address unitID quantity
      let r := { r with data := modbusRequest.getData }
      let r := { r with data := r.data.remove 0 5 }
      { adu := modbusRequest, modbusReply := [], mappingRequest := [r], qCritical := [] }
  else
    let line := logError "Illegal function" modbusRequest
    let adu := modbusRequest.setExceptionCode PDU.ExceptionCode.IllegalFunction
    { adu := adu, modbusReply := [adu], mappingRequest := [], qCritical := [line] }

/-- `Backend::getExceptionCode`: the lines written to `qCritical()` and the
value returned. -/
def getExceptionCode (error : MappingErrors) : List String × PDU.ExceptionCode :=
  match error with
  | MappingErrors.NoError => ([], PDU.ExceptionCode.NoExeption)
  | MappingErrors.StartAddressError => ([], PDU.ExceptionCode.IllegalDataAddress)
  | MappingErrors.AddressError => ([], PDU.ExceptionCode.IllegalDataAddress)
  | MappingErrors.QuantityError => ([], PDU.ExceptionCode.IllegalDataValue)
  | MappingErrors.UnitIdError =>
      ([], PDU.ExceptionCode.GatewayTargetDeviceFailedToRespond)
  | MappingErrors.ServiceError => ([], PDU.ExceptionCode.GatewayPathUnavailable)
  | MappingErrors.PermissionError => ([], PDU.ExceptionCode.IllegalDataAddress)
  | MappingErrors.outOfTable v =>
      (["Pitfall for error code handling:" ++ toString v],
        PDU.ExceptionCode.IllegalDataAddress)

/-- `Backend::requestCompleted`. -/
def requestCompleted (request : BackendRequest) : Emitted :=
  let reply := request.adu
  if request.error = MappingErrors.NoError then
    let reply := reply.setReplyData request.data
    { adu := reply, modbusReply := [reply], mappingRequest := [], qCritical := [] }
  else
    let line := logError request.errorString reply
    let code := getExceptionCode request.error
    let reply := reply.setExceptionCode code.2
    { adu := reply, modbusReply := [reply], mappingRequest := [],
      qCritical := line :: code.1 }

end Backend

/-! ## Sample requests -/

/-- A request as the transport layer hands it over: no exception, no reply data. -/
def ADU.request (functionCode address unitID quantity byteCount : Nat)
    (data : QByteArray) : ADU :=
  { mFunctionCode := functionCode, mAddres := address, mUnitID := unitID,
    mQuantity := quantity, mByteCount := byteCount, mData := data,
    mExceptionCode := PDU.ExceptionCode.NoExeption, mReplyData := [],
    peerAddress := "192.0.2.1" }

/-- The ten result bytes of the end-to-end read example. -/
def tenBytes : QByteArray := [0, 1, 0, 2, 0, 3, 0, 4, 0, 5]

/-! ## Property tree values -/

namespace QVariant

/-- Qt library function `QVariant::toString()` on the value of an item that
holds a string; an item without a value holds an invalid variant, whose string
is empty. -/
def toQString : Option String → String
  | none => ""
  | some s => s

/-- Qt library function `QVariant::toInt()` on the value of an item that holds
an integer; an invalid variant gives 0. -/
def toInt : Option Int → Int
  | none => 0
  | some n => n

end QVariant

namespace VeQItem

/-- Modelled from the spec: the states of a tree item (velib, not in src/);
the handlers tell `Offline` from every other state. -/
inductive State where
  | Idle
  | Offline
  | Requested
  | Storing
  | Synchronized
  deriving DecidableEq, Repr

end VeQItem

/-- A service root item as the handlers of the diagnostics service read it:
`id()`, `getState()` and the value of its `DeviceInstance` child, `none` when
the variant is not valid and `some n` for a valid variant whose `toInt()` is
`n`. -/
structure ServiceRoot where
  id : String
  state : VeQItem.State
  deviceInstance : Option Int
  deriving DecidableEq, Repr

/-! ## DBusService -/

namespace DBusService

/-- Qt library function `QString::split(".")` on the characters of a string:
the parts between the dots, empty parts kept. -/
def splitDot : List Char → List (List Char)
  | [] => [[]]
  | c :: cs =>
    if c = '.' then [] :: splitDot cs
    else
      match splitDot cs with
      | [] => [[c]]
      | w :: ws => (c :: w) :: ws

/-- `name.split(".")` as a list of strings. -/
def split (name : String) : List String :=
  (splitDot name.data).map String.mk

/-- `DBusService::getDeviceType`. -/
def getDeviceType (name : String) : String :=
  let elements := split name
  if elements.length < 3 then "Unknown"
  else elements.getD 2 ""

end DBusService

/-! ## DiagnosticsService: the service registry -/

/-- The values under `Services/<index>`; `none` is an item that has no value
yet.  The display text that `produceText` writes next to each value is not
part of the model. -/
structure ServiceEntry where
  ServiceName : Option String
  UnitId : Option Int
  IsActive : Option Int
  deriving DecidableEq, Repr

/-- The registry part of a `DiagnosticsService`: the value of `Services/Count`
and the entries `Services/0`, `Services/1`, ...; an index that has no node yet
reads as an entry without values, which is what `itemGetOrCreate` gives.  The
count is only ever written by the constructor (0) and by `createServiceItem`
(one more), so it is a natural number; the overflow of the C++ `int` after
2^31 - 1 entries is outside the model. -/
structure DiagnosticsService where
  mServiceCount : Nat
  services : Nat → ServiceEntry

namespace DiagnosticsService

/-- The registry the constructor leaves: `Services/Count` is 0 and no entry
has a value. -/
def init : DiagnosticsService :=
  { mServiceCount := 0, services := fun _ => ⟨none, none, none⟩ }

/-- The registry in which the values under `Services/<i>` are `e` (the effect
of `produceValue` on a child of that node) and the rest is as in `d`. -/
def setEntry (d : DiagnosticsService) (i : Nat) (e : ServiceEntry) :
    DiagnosticsService :=
  { d with services := fun j => if j = i then e else d.services j }

/-- `DiagnosticsService::getServiceItem(VeQItem *serviceRoot, VeQItem
*deviceInstance)`: the index of the entry found, `none` for the null pointer.
`getUnitId` is `Mappings::getUnitId`. -/
def getServiceItem (getUnitId : Int → Int) (d : DiagnosticsService)
    (serviceRoot : ServiceRoot) (deviceInstance : Option Int) : Option Nat :=
  match deviceInstance with
  | none => none
  | some v =>
    let unitId := getUnitId v
    let id := serviceRoot.id
    let serviceType := DBusService.getDeviceType id
    let serviceCount := d.mServiceCount
    (List.range serviceCount).find? fun i =>
      let st := DBusService.getDeviceType
        (QVariant.toQString (d.services i).ServiceName)
      decide (st = serviceType) && decide (QVariant.toInt (d.services i).UnitId = unitId)

/-- `DiagnosticsService::getServiceItem(VeQItem *serviceRoot)`: the first entry
whose service name is the identifier of the service root. -/
def getServiceItemByName (d : DiagnosticsService) (serviceRoot : ServiceRoot) :
    Option Nat :=
  let serviceName := serviceRoot.id
  let serviceCount := d.mServiceCount
  (List.range serviceCount).find? fun i =>
    decide (serviceName = QVariant.toQString (d.services i).ServiceName)

/-- `DiagnosticsService::createServiceItem`: the registry afterwards and the
index of the new entry, `none` for the null pointer.  `setValue` on
`Services/Count` stores the value at once, as `produceValue` does. -/
def createServiceItem (getUnitId : Int → Int) (d : DiagnosticsService)
    (deviceInstance : Option Int) : DiagnosticsService × Option Nat :=
  match deviceInstance with
  | none => (d, none)
  | some v =>
    let unitId := getUnitId v
    let serviceCount := d.mServiceCount
    let d := d.setEntry serviceCount
      { d.services serviceCount with UnitId := some unitId }
    let d := { d with mServiceCount := serviceCount + 1 }
    (d, some serviceCount)

/-- `DiagnosticsService::updateService`. -/
def updateService (d : DiagnosticsService) (serviceEntry : Nat)
    (serviceRoot : ServiceRoot) : DiagnosticsService :=
  let id := serviceRoot.id
  let d := d.setEntry serviceEntry
    { d.services serviceEntry with ServiceName := some id }
  let a : Int := if serviceRoot.state = VeQItem.State.Offline then 0 else 1
  d.setEntry serviceEntry { d.services serviceEntry with IsActive := some a }

/-- `DiagnosticsService::onDeviceInstanceChanged`, called with the
`DeviceInstance` child of `serviceRoot`. -/
def onDeviceInstanceChanged (getUnitId : Int → Int) (d : DiagnosticsService)
    (serviceRoot : ServiceRoot) : DiagnosticsService :=
  let deviceInstanceItem := serviceRoot.deviceInstance
  match getServiceItem getUnitId d serviceRoot deviceInstanceItem with
  | some serviceEntry => updateService d serviceEntry serviceRoot
  | none =>
    match createServiceItem getUnitId d deviceInstanceItem with
    | (d, some serviceEntry) => updateService d serviceEntry serviceRoot
    | (d, none) => d

/-- `DiagnosticsService::onServiceStateChanged`. -/
def onServiceStateChanged (getUnitId : Int → Int) (d : DiagnosticsService)
    (item : ServiceRoot) : DiagnosticsService :=
  if item.state = VeQItem.State.Offline then
    match getServiceItemByName d item with
    | some serviceEntry => updateService d serviceEntry item
    | none => d
  else
    let deviceInstanceItem := item.deviceInstance
    match getServiceItem getUnitId d item deviceInstanceItem with
    | some serviceEntry => updateService d serviceEntry item
    | none =>
      match createServiceItem getUnitId d deviceInstanceItem with
      | (d, some serviceEntry) => updateService d serviceEntry item
      | (d, none) => d

/-- The signals the registry is connected to in `onServiceFound`. -/
inductive Event where
  | deviceInstanceChanged (serviceRoot : ServiceRoot)
  | serviceStateChanged (item : ServiceRoot)
  deriving DecidableEq, Repr

/-- The slot an event runs. -/
def handle (getUnitId : Int → Int) (d : DiagnosticsService) :
    Event → DiagnosticsService
  | Event.deviceInstanceChanged serviceRoot =>
      onDeviceInstanceChanged getUnitId d serviceRoot
  | Event.serviceStateChanged item => onServiceStateChanged getUnitId d item

/-- The registry after a sequence of events, starting from `d`. -/
def run (getUnitId : Int → Int) (d : DiagnosticsService)
    (events : List Event) : DiagnosticsService :=
  events.foldl (handle getUnitId) d

/-- The device type of entry `i`: `getDeviceType` of its service name. -/
def deviceType (d : DiagnosticsService) (i : Nat) : String :=
  DBusService.getDeviceType (QVariant.toQString (d.services i).ServiceName)

/-- The unit id of entry `i`. -/
def unitId (d : DiagnosticsService) (i : Nat) : Int :=
  QVariant.toInt (d.services i).UnitId

/-- No two entries below `Services/Count` have the same device type and the
same unit id. -/
def NoDuplicates (d : DiagnosticsService) : Prop :=
  ∀ j, j < d.mServiceCount → ∀ i, i < j →
    ¬ (d.deviceType i = d.deviceType j ∧ d.unitId i = d.unitId j)

end DiagnosticsService

/-- Three events: a battery and a solar charger appear with the same device
instance, then the battery goes offline. -/
def DiagnosticsService.sampleEvents : List DiagnosticsService.Event :=
  [DiagnosticsService.Event.deviceInstanceChanged
     ⟨"com.victronenergy.battery.ttyO1", VeQItem.State.Synchronized, some 5⟩,
   DiagnosticsService.Event.deviceInstanceChanged
     ⟨"com.victronenergy.solarcharger.ttyO2", VeQItem.State.Synchronized, some 5⟩,
   DiagnosticsService.Event.serviceStateChanged
     ⟨"com.victronenergy.battery.ttyO1", VeQItem.State.Offline, none⟩]

/-- The service root an event is about. -/
def DiagnosticsService.Event.serviceRoot : DiagnosticsService.Event → ServiceRoot
  | DiagnosticsService.Event.deviceInstanceChanged serviceRoot => serviceRoot
  | DiagnosticsService.Event.serviceStateChanged item => item

/-- A registry with one battery entry, unit id 5. -/
def DiagnosticsService.oneBattery : DiagnosticsService :=
  DiagnosticsService.run (fun v => v) DiagnosticsService.init
    [DiagnosticsService.Event.deviceInstanceChanged
      ⟨"com.victronenergy.battery.ttyO1", VeQItem.State.Synchronized, some 5⟩]

/-- A registry with two entries that carry the same service name. -/
def DiagnosticsService.twoSameName : DiagnosticsService :=
  { mServiceCount := 2,
    services := fun i =>
      if i = 0 then ⟨some "com.victronenergy.battery.ttyO1", some 5, some 1⟩
      else if i = 1 then ⟨some "com.victronenergy.battery.ttyO1", some 6, some 1⟩
      else ⟨none, none, none⟩ }

/-! ## DiagnosticsService: the last error -/

/-- The last-error part of a `DiagnosticsService`.  Clock values are
milliseconds since the epoch.  `mLastErrorTimer` is the single-shot timer with
the interval of 1000 ms that the constructor sets up: `none` when it is not
active, `some t` when it is active and due at clock `t`.  `published` lists the
values produced on `LastError/Message` and `LastError/Timestamp`, one pair for
each run of `onLastErrorTimer`, oldest first; the display texts are not part of
the model. -/
structure LastError where
  mLastErrorText : String
  mLastErrorTime : Nat
  mLastErrorTimer : Option Nat
  published : List (String × Nat)
  deriving DecidableEq, Repr

namespace LastError

/-- The state the constructor leaves: no message, timer not active, nothing
published. -/
def init : LastError :=
  { mLastErrorText := "", mLastErrorTime := 0, mLastErrorTimer := none,
    published := [] }

/-- Qt library function `QTimer::isActive()`. -/
def isActive (s : LastError) : Bool := s.mLastErrorTimer.isSome

/-- Qt library function `QTimer::start()` at clock `now`, for the interval of
1000 ms set by the constructor. -/
def start (s : LastError) (now : Nat) : LastError :=
  { s with mLastErrorTimer := some (now + 1000) }

/-- Qt library function `QDateTime::toTime_t()`: whole seconds since the
epoch. -/
def toTime_t (t : Nat) : Nat := t / 1000

/-- `DiagnosticsService::setError`, called when
`QDateTime::currentDateTimeUtc()` is `now`. -/
def setError (s : LastError) (now : Nat) (error : String) : LastError :=
  let s := { s with mLastErrorText := error }
  let s := { s with mLastErrorTime := now }
  if !s.isActive then s.start now else s

/-- `DiagnosticsService::onLastErrorTimer`. -/
def onLastErrorTimer (s : LastError) : LastError :=
  { s with published :=
      s.published ++ [(s.mLastErrorText, toTime_t s.mLastErrorTime)] }

/-- The event loop at clock `now`: a timer that is active and due stops (it is
single-shot) and its `timeout()` signal runs `onLastErrorTimer`. -/
def timeout (s : LastError) (now : Nat) : LastError :=
  match s.mLastErrorTimer with
  | some t =>
    if t ≤ now then onLastErrorTimer { s with mLastErrorTimer := none } else s
  | none => s

/-- A critical message at clock `now`: the event loop has delivered what was due
by then, and the message handler calls `setError`. -/
def critical (s : LastError) (now : Nat) (msg : String) : LastError :=
  setError (timeout s now) now msg

/-- The state after a first critical message at clock 0: the timer is active
and due at 1000. -/
def armedAtZero : LastError := critical init 0 "m0"

end LastError

/-! ## Facts about the Qt containers -/

theorem QByteArray.remove_zero (a : QByteArray) (len : Nat) :
    QByteArray.remove a 0 len = a.drop len := by
  unfold QByteArray.remove
  by_cases hl : len = 0
  · simp [hl]
  · by_cases ha : a.length ≤ 0
    · have : a = [] := List.length_eq_zero.mp (Nat.le_zero.mp ha)
      simp [this]
    · by_cases hc : a.length - 0 ≤ len
      · have hd : a.drop len = [] := List.drop_eq_nil_of_le (by simpa using hc)
        simp [hl, ha, hc, hd]
      · simp [hl, ha, hc]

/-! ## Request dispatch -/

namespace Backend

/-- The read branch of `modbusRequest`. -/
theorem modbusRequest_of_read (r : ADU)
    (hfc : r.getFunctionCode = PDU.ReadHoldingRegisters ∨
      r.getFunctionCode = PDU.ReadInputRegisters) :
    modbusRequest r =
      if r.getQuantity = 0 ∨ r.getQuantity > 125 then
        { adu := r.setExceptionCode PDU.ExceptionCode.IllegalDataValue,
          modbusReply := [r.setExceptionCode PDU.ExceptionCode.IllegalDataValue],
          mappingRequest := [],
          qCritical := [logError "Requested quantity invalid for this function" r] }
      else
        { adu := r, modbusReply := [],
          mappingRequest := [BackendRequest.new r MappingRequestType.ReadValues
            r.getAddres r.getUnitID r.getQuantity],
          qCritical := [] } := by
  unfold modbusRequest
  simp only [hfc, if_true]

/-- The WriteSingleRegister branch of `modbusRequest`. -/
theorem modbusRequest_of_writeSingle (r : ADU)
    (hfc : r.getFunctionCode = PDU.WriteSingleRegister) :
    modbusRequest r =
      { adu := r, modbusReply := [],
        mappingRequest := [{ BackendRequest.new r MappingRequestType.WriteValues
          r.getAddres r.getUnitID 1 with data := r.getData.drop 2 }],
        qCritical := [] } := by
  have h : r.getFunctionCode = 6 := hfc
  unfold modbusRequest
  simp [h, PDU.ReadHoldingRegisters, PDU.ReadInputRegisters, PDU.WriteSingleRegister,
    QByteArray.remove_zero]

/-- The WriteMultipleRegisters branch of `modbusRequest`. -/
theorem modbusRequest_of_writeMultiple (r : ADU)
    (hfc : r.getFunctionCode = PDU.WriteMultipleRegisters) :
    modbusRequest r =
      if (r.getQuantity = 0 ∨ r.getQuantity > 125) ∨
          r.getByteCount ≠ r.getQuantity * 2 then
        { adu := r.setExceptionCode PDU.ExceptionCode.IllegalDataValue,
          modbusReply := [r.setExceptionCode PDU.ExceptionCode.IllegalDataValue],
          mappingRequest := [],
          qCritical := [logError "Requested quantity invalid for this function" r] }
      else
        { adu := r, modbusReply := [],
          mappingRequest := [{ BackendRequest.new r MappingRequestType.WriteValues
            r.getAddres r.getUnitID r.getQuantity with data := r.getData.drop 5 }],
          qCritical := [] } := by
  have h : r.getFunctionCode = 16 := hfc
  unfold modbusRequest
  simp [h, PDU.ReadHoldingRegisters, PDU.ReadInputRegisters, PDU.WriteSingleRegister,
    PDU.WriteMultipleRegisters, QByteArray.remove_zero]

/-- The default branch of `modbusRequest`. -/
theorem modbusRequest_of_other (r : ADU)
    (h1 : r.getFunctionCode ≠ PDU.ReadHoldingRegisters)
    (h2 : r.getFunctionCode ≠ PDU.ReadInputRegisters)
    (h3 : r.getFunctionCode ≠ PDU.WriteSingleRegister)
    (h4 : r.getFunctionCode ≠ PDU.WriteMultipleRegisters) :
    modbusRequest r =
      { adu := r.setExceptionCode PDU.ExceptionCode.IllegalFunction,
        modbusReply := [r.setExceptionCode PDU.ExceptionCode.IllegalFunction],
        mappingRequest := [],
        qCritical := [logError "Illegal function" r] } := by
  unfold modbusRequest
  simp [h1, h2, h3, h4]

/-- C1: a read request (ReadHoldingRegisters or ReadInputRegisters) whose
quantity is 0 or above 125 gets the exception code IllegalDataValue, exactly one
reply is emitted for it, and no mapping request is submitted. -/
theorem modbusRequest_read_invalid_quantity (r : ADU)
    (hfc : r.getFunctionCode = PDU.ReadHoldingRegisters ∨
      r.getFunctionCode = PDU.ReadInputRegisters)
    (hq : r.getQuantity = 0 ∨ r.getQuantity > 125) :
    (modbusRequest r).adu.mExceptionCode = PDU.ExceptionCode.IllegalDataValue ∧
    (modbusRequest r).modbusReply =
      [r.setExceptionCode PDU.ExceptionCode.IllegalDataValue] ∧
    (modbusRequest r).mappingRequest = [] := by
  rw [modbusRequest_of_read r hfc, if_pos hq]
  exact ⟨rfl, rfl, rfl⟩

/-- Witness of C1: ReadInputRegisters with quantity 126. -/
theorem modbusRequest_read_invalid_quantity_witness :
    ((ADU.request 4 10 3 126 0 []).getFunctionCode = PDU.ReadHoldingRegisters ∨
      (ADU.request 4 10 3 126 0 []).getFunctionCode = PDU.ReadInputRegisters) ∧
    ((ADU.request 4 10 3 126 0 []).getQuantity = 0 ∨
      (ADU.request 4 10 3 126 0 []).getQuantity > 125) ∧
    (modbusRequest (ADU.request 4 10 3 126 0 [])).modbusReply =
      [(ADU.request 4 10 3 126 0 []).setExceptionCode
        PDU.ExceptionCode.IllegalDataValue] ∧
    (modbusRequest (ADU.request 4 10 3 126 0 [])).mappingRequest = [] :=
  ⟨by decide, by decide,
   (modbusRequest_read_invalid_quantity (ADU.request 4 10 3 126 0 [])
      (by decide) (by decide)).2⟩

/-- C2: a WriteMultipleRegisters request whose byte count differs from twice its
quantity is answered with IllegalDataValue (one reply) and no mapping request is
submitted, whatever the quantity is. -/
theorem modbusRequest_writeMultiple_byteCount_mismatch (r : ADU)
    (hfc : r.getFunctionCode = PDU.WriteMultipleRegisters)
    (hbc : r.getByteCount ≠ r.getQuantity * 2) :
    (modbusRequest r).adu.mExceptionCode = PDU.ExceptionCode.IllegalDataValue ∧
    (modbusRequest r).modbusReply =
      [r.setExceptionCode PDU.ExceptionCode.IllegalDataValue] ∧
    (modbusRequest r).mappingRequest = [] := by
  rw [modbusRequest_of_writeMultiple r hfc, if_pos (Or.inr hbc)]
  exact ⟨rfl, rfl, rfl⟩

/-- Witness of C2: a valid quantity (2) with byte count 5. -/
theorem modbusRequest_writeMultiple_byteCount_mismatch_witness :
    (ADU.request 16 10 3 2 5 [0, 10, 0, 2, 5, 1, 2, 3, 4, 5]).getFunctionCode =
      PDU.WriteMultipleRegisters ∧
    (ADU.request 16 10 3 2 5 [0, 10, 0, 2, 5, 1, 2, 3, 4, 5]).getByteCount ≠
      (ADU.request 16 10 3 2 5 [0, 10, 0, 2, 5, 1, 2, 3, 4, 5]).getQuantity * 2 ∧
    (modbusRequest (ADU.request 16 10 3 2 5 [0, 10, 0, 2, 5, 1, 2, 3, 4, 5])).modbusReply =
      [(ADU.request 16 10 3 2 5 [0, 10, 0, 2, 5, 1, 2, 3, 4, 5]).setExceptionCode
        PDU.ExceptionCode.IllegalDataValue] ∧
    (modbusRequest
      (ADU.request 16 10 3 2 5 [0, 10, 0, 2, 5, 1, 2, 3, 4, 5])).mappingRequest = [] :=
  ⟨by decide, by decide,
   (modbusRequest_writeMultiple_byteCount_mismatch
      (ADU.request 16 10 3 2 5 [0, 10, 0, 2, 5, 1, 2, 3, 4, 5])
      (by decide) (by decide)).2⟩

/-- C3: a WriteMultipleRegisters request is accepted (a mapping request is
submitted and no reply is emitted) exactly when 1 <= quantity <= 125 and
byteCount = quantity * 2; when accepted, exactly one mapping request is
submitted, with operation WriteValues, the address, unit id and quantity of the
request and the request data without its first 5 bytes, and no reply is
emitted. -/
theorem modbusRequest_writeMultiple_accepted_iff (r : ADU)
    (hfc : r.getFunctionCode = PDU.WriteMultipleRegisters) :
    (((modbusRequest r).mappingRequest ≠ [] ∧ (modbusRequest r).modbusReply = []) ↔
      (1 ≤ r.getQuantity ∧ r.getQuantity ≤ 125 ∧
        r.getByteCount = r.getQuantity * 2)) ∧
    ((1 ≤ r.getQuantity ∧ r.getQuantity ≤ 125 ∧
        r.getByteCount = r.getQuantity * 2) →
      (modbusRequest r).mappingRequest =
        [{ adu := r, type := MappingRequestType.WriteValues,
           address := r.getAddres, unitId := r.getUnitID,
           quantity := r.getQuantity, data := r.getData.drop 5,
           error := MappingErrors.NoError, errorString := "" }] ∧
      r.getData.take 5 ++ r.getData.drop 5 = r.getData ∧
      (modbusRequest r).modbusReply = [] ∧
      (modbusRequest r).adu = r) := by
  rw [modbusRequest_of_writeMultiple r hfc]
  by_cases hc : (r.getQuantity = 0 ∨ r.getQuantity > 125) ∨
      r.getByteCount ≠ r.getQuantity * 2
  · rw [if_pos hc]
    have hn : ¬ (1 ≤ r.getQuantity ∧ r.getQuantity ≤ 125 ∧
        r.getByteCount = r.getQuantity * 2) := by
      rintro ⟨h1, h2, h3⟩
      rcases hc with (h | h) | h
      · omega
      · omega
      · exact h h3
    exact ⟨⟨fun h => absurd rfl h.1, fun h => absurd h hn⟩, fun h => absurd h hn⟩
  · rw [if_neg hc]
    have hy : 1 ≤ r.getQuantity ∧ r.getQuantity ≤ 125 ∧
        r.getByteCount = r.getQuantity * 2 := by
      refine ⟨?_, ?_, ?_⟩
      · by_contra h; exact hc (Or.inl (Or.inl (by omega)))
      · by_contra h; exact hc (Or.inl (Or.inr (by omega)))
      · by_contra h; exact hc (Or.inr h)
    refine ⟨⟨fun _ => hy, fun _ => ⟨by simp, rfl⟩⟩, fun _ => ⟨rfl, ?_, rfl, rfl⟩⟩
    exact List.take_append_drop 5 r.getData

/-- Witness of C3: quantity 2 with byte count 4 and a 9-byte request. -/
theorem modbusRequest_writeMultiple_accepted_iff_witness :
    (ADU.request 16 10 3 2 4 [0, 10, 0, 2, 4, 1, 2, 3, 4]).getFunctionCode =
      PDU.WriteMultipleRegisters ∧
    (modbusRequest (ADU.request 16 10 3 2 4 [0, 10, 0, 2, 4, 1, 2, 3, 4])).mappingRequest =
      [{ adu := ADU.request 16 10 3 2 4 [0, 10, 0, 2, 4, 1, 2, 3, 4],
         type := MappingRequestType.WriteValues, address := 10, unitId := 3,
         quantity := 2, data := [1, 2, 3, 4],
         error := MappingErrors.NoError, errorString := "" }] ∧
    (modbusRequest (ADU.request 16 10 3 2 4 [0, 10, 0, 2, 4, 1, 2, 3, 4])).modbusReply =
      [] :=
  ⟨by decide,
   ((modbusRequest_writeMultiple_accepted_iff
      (ADU.request 16 10 3 2 4 [0, 10, 0, 2, 4, 1, 2, 3, 4]) (by decide)).2
      (by decide)).1,
   ((modbusRequest_writeMultiple_accepted_iff
      (ADU.request 16 10 3 2 4 [0, 10, 0, 2, 4, 1, 2, 3, 4]) (by decide)).2
      (by decide)).2.2.1⟩

/-- C4: a WriteSingleRegister request, whatever its quantity, byte count and
data, leads to exactly one mapping request with operation WriteValues, the
address and unit id of the request, quantity 1 and the request data without its
first 2 bytes (empty when the data has fewer than 2 bytes); no exception is set
and no reply is emitted. -/
theorem modbusRequest_writeSingle (r : ADU)
    (hfc : r.getFunctionCode = PDU.WriteSingleRegister) :
    (modbusRequest r).mappingRequest =
      [{ adu := r, type := MappingRequestType.WriteValues,
         address := r.getAddres, unitId := r.getUnitID, quantity := 1,
         data := r.getData.drop 2,
         error := MappingErrors.NoError, errorString := "" }] ∧
    r.getData.take 2 ++ r.getData.drop 2 = r.getData ∧
    (r.getData.length < 2 → r.getData.drop 2 = []) ∧
    (modbusRequest r).adu = r ∧
    (modbusRequest r).modbusReply = [] := by
  rw [modbusRequest_of_writeSingle r hfc]
  refine ⟨rfl, List.take_append_drop 2 r.getData, ?_, rfl, rfl⟩
  intro h
  exact List.drop_eq_nil_of_le (by omega)

/-- Witness of C4: a request whose quantity and byte count fields are
meaningless and whose data has a single byte. -/
theorem modbusRequest_writeSingle_witness :
    (ADU.request 6 10 3 999 77 [5]).getFunctionCode = PDU.WriteSingleRegister ∧
    (modbusRequest (ADU.request 6 10 3 999 77 [5])).mappingRequest =
      [{ adu := ADU.request 6 10 3 999 77 [5],
         type := MappingRequestType.WriteValues, address := 10, unitId := 3,
         quantity := 1, data := [],
         error := MappingErrors.NoError, errorString := "" }] ∧
    (modbusRequest (ADU.request 6 10 3 999 77 [5])).modbusReply = [] :=
  ⟨by decide,
   (modbusRequest_writeSingle (ADU.request 6 10 3 999 77 [5]) (by decide)).1,
   (modbusRequest_writeSingle (ADU.request 6 10 3 999 77 [5]) (by decide)).2.2.2.2⟩

/-- C5: a read request (ReadHoldingRegisters or ReadInputRegisters) with
1 <= quantity <= 125 leads to exactly one mapping request with operation
ReadValues and the address, unit id and quantity of the request; no exception
code is set and no reply is emitted. -/
theorem modbusRequest_read_valid_quantity (r : ADU)
    (hfc : r.getFunctionCode = PDU.ReadHoldingRegisters ∨
      r.getFunctionCode = PDU.ReadInputRegisters)
    (hlo : 1 ≤ r.getQuantity) (hhi : r.getQuantity ≤ 125) :
    (modbusRequest r).mappingRequest =
      [{ adu := r, type := MappingRequestType.ReadValues,
         address := r.getAddres, unitId := r.getUnitID,
         quantity := r.getQuantity, data := [],
         error := MappingErrors.NoError, errorString := "" }] ∧
    (modbusRequest r).adu = r ∧
    (modbusRequest r).modbusReply = [] := by
  have hq : ¬ (r.getQuantity = 0 ∨ r.getQuantity > 125) := by omega
  rw [modbusRequest_of_read r hfc, if_neg hq]
  exact ⟨rfl, rfl, rfl⟩

/-- Witness of C5: ReadHoldingRegisters, address 10, unit 3, quantity 5. -/
theorem modbusRequest_read_valid_quantity_witness :
    ((ADU.request 3 10 3 5 0 []).getFunctionCode = PDU.ReadHoldingRegisters ∨
      (ADU.request 3 10 3 5 0 []).getFunctionCode = PDU.ReadInputRegisters) ∧
    1 ≤ (ADU.request 3 10 3 5 0 []).getQuantity ∧
    (ADU.request 3 10 3 5 0 []).getQuantity ≤ 125 ∧
    (modbusRequest (ADU.request 3 10 3 5 0 [])).mappingRequest =
      [{ adu := ADU.request 3 10 3 5 0 [],
         type := MappingRequestType.ReadValues, address := 10, unitId := 3,
         quantity := 5, data := [],
         error := MappingErrors.NoError, errorString := "" }] ∧
    (modbusRequest (ADU.request 3 10 3 5 0 [])).modbusReply = [] :=
  ⟨by decide, by decide, by decide,
   (modbusRequest_read_valid_quantity (ADU.request 3 10 3 5 0 [])
      (by decide) (by decide) (by decide)).1,
   (modbusRequest_read_valid_quantity (ADU.request 3 10 3 5 0 [])
      (by decide) (by decide) (by decide)).2.2⟩

/-- C6: a request whose function code is none of ReadHoldingRegisters,
ReadInputRegisters, WriteSingleRegister, WriteMultipleRegisters gets the
exception IllegalFunction, exactly one reply is emitted, and no mapping request
is submitted. -/
theorem modbusRequest_illegal_function (r : ADU)
    (h1 : r.getFunctionCode ≠ PDU.ReadHoldingRegisters)
    (h2 : r.getFunctionCode ≠ PDU.ReadInputRegisters)
    (h3 : r.getFunctionCode ≠ PDU.WriteSingleRegister)
    (h4 : r.getFunctionCode ≠ PDU.WriteMultipleRegisters) :
    (modbusRequest r).adu.mExceptionCode = PDU.ExceptionCode.IllegalFunction ∧
    (modbusRequest r).modbusReply =
      [r.setExceptionCode PDU.ExceptionCode.IllegalFunction] ∧
    (modbusRequest r).mappingRequest = [] := by
  rw [modbusRequest_of_other r h1 h2 h3 h4]
  exact ⟨rfl, rfl, rfl⟩

/-- Witness of C6: function code 99. -/
theorem modbusRequest_illegal_function_witness :
    (ADU.request 99 10 3 5 0 []).getFunctionCode = 99 ∧
    (modbusRequest (ADU.request 99 10 3 5 0 [])).modbusReply =
      [(ADU.request 99 10 3 5 0 []).setExceptionCode
        PDU.ExceptionCode.IllegalFunction] ∧
    (modbusRequest (ADU.request 99 10 3 5 0 [])).mappingRequest = [] :=
  ⟨by decide,
   (modbusRequest_illegal_function (ADU.request 99 10 3 5 0 [])
      (by decide) (by decide) (by decide) (by decide)).2⟩

/-! ## Completion and error translation -/

/-- C7: the translation table of `getExceptionCode`, entry by entry, and
IllegalDataAddress for every value outside the table. -/
theorem getExceptionCode_table :
    (getExceptionCode MappingErrors.NoError).2 = PDU.ExceptionCode.NoExeption ∧
    (getExceptionCode MappingErrors.StartAddressError).2 =
      PDU.ExceptionCode.IllegalDataAddress ∧
    (getExceptionCode MappingErrors.AddressError).2 =
      PDU.ExceptionCode.IllegalDataAddress ∧
    (getExceptionCode MappingErrors.QuantityError).2 =
      PDU.ExceptionCode.IllegalDataValue ∧
    (getExceptionCode MappingErrors.UnitIdError).2 =
      PDU.ExceptionCode.GatewayTargetDeviceFailedToRespond ∧
    (getExceptionCode MappingErrors.ServiceError).2 =
      PDU.ExceptionCode.GatewayPathUnavailable ∧
    (getExceptionCode MappingErrors.PermissionError).2 =
      PDU.ExceptionCode.IllegalDataAddress ∧
    (∀ v : Int, (getExceptionCode (MappingErrors.outOfTable v)).2 =
      PDU.ExceptionCode.IllegalDataAddress) :=
  ⟨rfl, rfl, rfl, rfl, rfl, rfl, rfl, fun _ => rfl⟩

/-- C8: a completed mapping request gets exactly one reply, for the ADU it was
made for.  With NoError the reply data is the data of the mapping request and
the exception code is the one the ADU had (none for a fresh request); with any
other error the exception code is `getExceptionCode error` and the reply data is
the one the ADU had.  No mapping request is submitted. -/
theorem requestCompleted_reply (request : BackendRequest) :
    (requestCompleted request).mappingRequest = [] ∧
    (request.error = MappingErrors.NoError →
      (requestCompleted request).modbusReply =
        [request.adu.setReplyData request.data] ∧
      (request.adu.setReplyData request.data).mReplyData = request.data ∧
      (request.adu.setReplyData request.data).mExceptionCode =
        request.adu.mExceptionCode ∧
      (request.adu.mExceptionCode = PDU.ExceptionCode.NoExeption →
        (request.adu.setReplyData request.data).mExceptionCode =
          PDU.ExceptionCode.NoExeption)) ∧
    (request.error ≠ MappingErrors.NoError →
      (requestCompleted request).modbusReply =
        [request.adu.setExceptionCode (getExceptionCode request.error).2] ∧
      (request.adu.setExceptionCode (getExceptionCode request.error).2).mExceptionCode =
        (getExceptionCode request.error).2 ∧
      (request.adu.setExceptionCode (getExceptionCode request.error).2).mReplyData =
        request.adu.mReplyData) := by
  refine ⟨?_, fun h => ⟨?_, rfl, rfl, fun h0 => h0⟩, fun h => ⟨?_, rfl, rfl⟩⟩
  · unfold requestCompleted
    by_cases h : request.error = MappingErrors.NoError
    · rw [if_pos h]
    · rw [if_neg h]
  · unfold requestCompleted
    rw [if_pos h]
  · unfold requestCompleted
    rw [if_neg h]

/-- Witness of C8: ReadHoldingRegisters, address 10, unit 3, quantity 5, whose
mapping request is completed with ten result bytes: the reply has no exception
and those ten bytes. -/
theorem requestCompleted_reply_witness :
    (modbusRequest (ADU.request 3 10 3 5 0 [])).mappingRequest =
      [BackendRequest.new (ADU.request 3 10 3 5 0 [])
        MappingRequestType.ReadValues 10 3 5] ∧
    (requestCompleted
      { BackendRequest.new (ADU.request 3 10 3 5 0 [])
          MappingRequestType.ReadValues 10 3 5 with data := tenBytes }).modbusReply =
      [{ ADU.request 3 10 3 5 0 [] with mReplyData := tenBytes }] ∧
    ({ ADU.request 3 10 3 5 0 [] with mReplyData := tenBytes } : ADU).mExceptionCode =
      PDU.ExceptionCode.NoExeption ∧
    tenBytes.length = 10 :=
  ⟨by decide,
   ((requestCompleted_reply
      { BackendRequest.new (ADU.request 3 10 3 5 0 [])
          MappingRequestType.ReadValues 10 3 5 with data := tenBytes }).2.1 rfl).1,
   rfl, rfl⟩

/-- C9: a completion with any error other than NoError, in or outside the
table, is answered by one reply whose exception code is not NoExeption. -/
theorem requestCompleted_error_has_exception (request : BackendRequest)
    (h : request.error ≠ MappingErrors.NoError) :
    (getExceptionCode request.error).2 ≠ PDU.ExceptionCode.NoExeption ∧
    ∃ reply : ADU, (requestCompleted request).modbusReply = [reply] ∧
      reply.mExceptionCode = (getExceptionCode request.error).2 ∧
      reply.mExceptionCode ≠ PDU.ExceptionCode.NoExeption := by
  have hne : (getExceptionCode request.error).2 ≠ PDU.ExceptionCode.NoExeption := by
    cases he : request.error with
    | NoError => exact absurd he h
    | StartAddressError => simp [getExceptionCode]
    | AddressError => simp [getExceptionCode]
    | QuantityError => simp [getExceptionCode]
    | UnitIdError => simp [getExceptionCode]
    | ServiceError => simp [getExceptionCode]
    | PermissionError => simp [getExceptionCode]
    | outOfTable v => simp [getExceptionCode]
  refine ⟨hne, request.adu.setExceptionCode (getExceptionCode request.error).2, ?_, rfl, hne⟩
  unfold requestCompleted
  simp only [h, if_false]

/-- Witness of C9: an error value outside the table. -/
theorem requestCompleted_error_has_exception_witness :
    ({ BackendRequest.new (ADU.request 3 10 3 5 0 [])
        MappingRequestType.ReadValues 10 3 5 with
        error := MappingErrors.outOfTable 42 } : BackendRequest).error ≠
      MappingErrors.NoError ∧
    ∃ reply : ADU,
      (requestCompleted
        { BackendRequest.new (ADU.request 3 10 3 5 0 [])
            MappingRequestType.ReadValues 10 3 5 with
            error := MappingErrors.outOfTable 42 }).modbusReply = [reply] ∧
      reply.mExceptionCode =
        (getExceptionCode (MappingErrors.outOfTable 42)).2 ∧
      reply.mExceptionCode ≠ PDU.ExceptionCode.NoExeption :=
  ⟨by decide,
   (requestCompleted_error_has_exception
      { BackendRequest.new (ADU.request 3 10 3 5 0 [])
          MappingRequestType.ReadValues 10 3 5 with
          error := MappingErrors.outOfTable 42 } (by decide)).2⟩

end Backend

/-! ## Service registry -/

namespace DiagnosticsService

theorem setEntry_count (d : DiagnosticsService) (i : Nat) (e : ServiceEntry) :
    (d.setEntry i e).mServiceCount = d.mServiceCount := rfl

theorem setEntry_services_same (d : DiagnosticsService) (i : Nat) (e : ServiceEntry) :
    (d.setEntry i e).services i = e := by
  simp [setEntry]

theorem setEntry_services_other (d : DiagnosticsService) (i j : Nat) (e : ServiceEntry)
    (h : j ≠ i) : (d.setEntry i e).services j = d.services j := by
  simp [setEntry, h]

theorem updateService_count (d : DiagnosticsService) (k : Nat) (r : ServiceRoot) :
    (updateService d k r).mServiceCount = d.mServiceCount := rfl

theorem updateService_services_same (d : DiagnosticsService) (k : Nat) (r : ServiceRoot) :
    (updateService d k r).services k =
      { ServiceName := some r.id, UnitId := (d.services k).UnitId,
        IsActive := some (if r.state = VeQItem.State.Offline then 0 else 1) } := by
  simp [updateService, setEntry]

theorem updateService_services_other (d : DiagnosticsService) (k j : Nat)
    (r : ServiceRoot) (h : j ≠ k) :
    (updateService d k r).services j = d.services j := by
  simp [updateService, setEntry, h]

theorem updateService_unitId (d : DiagnosticsService) (k j : Nat) (r : ServiceRoot) :
    (updateService d k r).unitId j = d.unitId j := by
  unfold unitId
  by_cases h : j = k
  · subst h; rw [updateService_services_same]
  · rw [updateService_services_other d k j r h]

theorem updateService_deviceType_same (d : DiagnosticsService) (k : Nat)
    (r : ServiceRoot) :
    (updateService d k r).deviceType k = DBusService.getDeviceType r.id := by
  unfold deviceType
  rw [updateService_services_same]
  rfl

theorem updateService_deviceType_other (d : DiagnosticsService) (k j : Nat)
    (r : ServiceRoot) (h : j ≠ k) :
    (updateService d k r).deviceType j = d.deviceType j := by
  unfold deviceType
  rw [updateService_services_other d k j r h]

/-- Writing a service name of the same device type keeps every device type. -/
theorem updateService_deviceType_of_eq (d : DiagnosticsService) (k j : Nat)
    (r : ServiceRoot) (h : d.deviceType k = DBusService.getDeviceType r.id) :
    (updateService d k r).deviceType j = d.deviceType j := by
  by_cases hj : j = k
  · subst hj; rw [updateService_deviceType_same, h]
  · exact updateService_deviceType_other d k j r hj

theorem NoDuplicates_updateService (d : DiagnosticsService) (k : Nat)
    (r : ServiceRoot) (h : d.deviceType k = DBusService.getDeviceType r.id)
    (hd : d.NoDuplicates) : (updateService d k r).NoDuplicates := by
  intro j hj i hij
  rw [updateService_count] at hj
  simp only [updateService_deviceType_of_eq d k _ r h, updateService_unitId]
  exact hd j hj i hij

/-- What a successful lookup by device type and unit id returns. -/
theorem getServiceItem_some (getUnitId : Int → Int) (d : DiagnosticsService)
    (r : ServiceRoot) (di : Option Int) (k : Nat)
    (h : getServiceItem getUnitId d r di = some k) :
    k < d.mServiceCount ∧ d.deviceType k = DBusService.getDeviceType r.id ∧
      ∃ v, di = some v ∧ d.unitId k = getUnitId v := by
  cases di with
  | none => simp [getServiceItem] at h
  | some v =>
    simp only [getServiceItem] at h
    have hm := List.mem_of_find?_eq_some h
    have hp := List.find?_some h
    simp only [Bool.and_eq_true, decide_eq_true_eq] at hp
    exact ⟨List.mem_range.mp hm, hp.1, v, rfl, hp.2⟩

/-- What a failed lookup by device type and unit id means when the device
instance is valid. -/
theorem getServiceItem_none (getUnitId : Int → Int) (d : DiagnosticsService)
    (r : ServiceRoot) (v : Int)
    (h : getServiceItem getUnitId d r (some v) = none) :
    ∀ i, i < d.mServiceCount →
      ¬ (d.deviceType i = DBusService.getDeviceType r.id ∧ d.unitId i = getUnitId v) := by
  intro i hi
  simp only [getServiceItem] at h
  have hp := List.find?_eq_none.mp h i (List.mem_range.mpr hi)
  simpa [deviceType, unitId] using hp

/-- What a successful lookup by name returns. -/
theorem getServiceItemByName_some (d : DiagnosticsService) (r : ServiceRoot) (k : Nat)
    (h : getServiceItemByName d r = some k) :
    k < d.mServiceCount ∧ QVariant.toQString (d.services k).ServiceName = r.id := by
  simp only [getServiceItemByName] at h
  have hm := List.mem_of_find?_eq_some h
  have hp := List.find?_some h
  simp only [decide_eq_true_eq] at hp
  exact ⟨List.mem_range.mp hm, hp.symm⟩

theorem createServiceItem_some (getUnitId : Int → Int) (d : DiagnosticsService)
    (v : Int) :
    createServiceItem getUnitId d (some v) =
      ({ mServiceCount := d.mServiceCount + 1,
         services := (d.setEntry d.mServiceCount
           { d.services d.mServiceCount with UnitId := some (getUnitId v) }).services },
        some d.mServiceCount) := rfl

theorem createServiceItem_none (getUnitId : Int → Int) (d : DiagnosticsService) :
    createServiceItem getUnitId d none = (d, none) := rfl

/-- Creating an entry and writing its name keeps the registry free of duplicates
when no entry has the device type of the name and the new unit id. -/
theorem NoDuplicates_create_update (getUnitId : Int → Int) (d : DiagnosticsService)
    (r : ServiceRoot) (v : Int)
    (hnone : ∀ i, i < d.mServiceCount →
      ¬ (d.deviceType i = DBusService.getDeviceType r.id ∧ d.unitId i = getUnitId v))
    (hd : d.NoDuplicates) :
    (updateService (createServiceItem getUnitId d (some v)).1 d.mServiceCount r).NoDuplicates := by
  have hother : ∀ i, i ≠ d.mServiceCount →
      (updateService (createServiceItem getUnitId d (some v)).1 d.mServiceCount r).deviceType i =
        d.deviceType i ∧
      (updateService (createServiceItem getUnitId d (some v)).1 d.mServiceCount r).unitId i =
        d.unitId i := by
    intro i hi
    constructor
    · rw [updateService_deviceType_other _ _ _ _ hi]
      simp [deviceType, createServiceItem, setEntry, hi]
    · rw [updateService_unitId]
      simp [unitId, createServiceItem, setEntry, hi]
  have hnew :
      (updateService (createServiceItem getUnitId d (some v)).1 d.mServiceCount r).deviceType
          d.mServiceCount = DBusService.getDeviceType r.id ∧
      (updateService (createServiceItem getUnitId d (some v)).1 d.mServiceCount r).unitId
          d.mServiceCount = getUnitId v := by
    constructor
    · exact updateService_deviceType_same _ _ _
    · rw [updateService_unitId]
      simp [unitId, createServiceItem, setEntry, QVariant.toInt]
  intro j hj i hij
  have hj1 : j < d.mServiceCount + 1 := hj
  by_cases hjc : j = d.mServiceCount
  · subst hjc
    rw [(hother i (Nat.ne_of_lt hij)).1, (hother i (Nat.ne_of_lt hij)).2, hnew.1, hnew.2]
    exact hnone i hij
  · have hjlt : j < d.mServiceCount := by omega
    have hi : i ≠ d.mServiceCount := by omega
    rw [(hother i hi).1, (hother i hi).2, (hother j hjc).1, (hother j hjc).2]
    exact hd j hjlt i hij

/-- The lookup by device type and unit id finds nothing without a valid device
instance. -/
theorem getServiceItem_invalid (getUnitId : Int → Int) (d : DiagnosticsService)
    (r : ServiceRoot) : getServiceItem getUnitId d r none = none := rfl

theorem onDeviceInstanceChanged_found (getUnitId : Int → Int) (d : DiagnosticsService)
    (r : ServiceRoot) (k : Nat)
    (h : getServiceItem getUnitId d r r.deviceInstance = some k) :
    onDeviceInstanceChanged getUnitId d r = updateService d k r := by
  simp only [onDeviceInstanceChanged, h]

theorem onDeviceInstanceChanged_invalid (getUnitId : Int → Int) (d : DiagnosticsService)
    (r : ServiceRoot) (h : r.deviceInstance = none) :
    onDeviceInstanceChanged getUnitId d r = d := by
  simp only [onDeviceInstanceChanged, h, getServiceItem_invalid, createServiceItem_none]

theorem onDeviceInstanceChanged_created (getUnitId : Int → Int) (d : DiagnosticsService)
    (r : ServiceRoot) (v : Int) (hv : r.deviceInstance = some v)
    (h : getServiceItem getUnitId d r (some v) = none) :
    onDeviceInstanceChanged getUnitId d r =
      updateService (createServiceItem getUnitId d (some v)).1 d.mServiceCount r := by
  simp only [onDeviceInstanceChanged, hv, h, createServiceItem_some]

theorem onServiceStateChanged_online (getUnitId : Int → Int) (d : DiagnosticsService)
    (r : ServiceRoot) (h : r.state ≠ VeQItem.State.Offline) :
    onServiceStateChanged getUnitId d r = onDeviceInstanceChanged getUnitId d r := by
  simp only [onServiceStateChanged, onDeviceInstanceChanged, h, if_false]

theorem onServiceStateChanged_offline_found (getUnitId : Int → Int)
    (d : DiagnosticsService) (r : ServiceRoot) (k : Nat)
    (h : r.state = VeQItem.State.Offline) (hk : getServiceItemByName d r = some k) :
    onServiceStateChanged getUnitId d r = updateService d k r := by
  simp only [onServiceStateChanged, h, hk, if_true]

theorem onServiceStateChanged_offline_none (getUnitId : Int → Int)
    (d : DiagnosticsService) (r : ServiceRoot)
    (h : r.state = VeQItem.State.Offline) (hk : getServiceItemByName d r = none) :
    onServiceStateChanged getUnitId d r = d := by
  simp only [onServiceStateChanged, h, hk, if_true]

theorem NoDuplicates_onDeviceInstanceChanged (getUnitId : Int → Int)
    (d : DiagnosticsService) (r : ServiceRoot) (hd : d.NoDuplicates) :
    (onDeviceInstanceChanged getUnitId d r).NoDuplicates := by
  cases hv : r.deviceInstance with
  | none => rw [onDeviceInstanceChanged_invalid getUnitId d r hv]; exact hd
  | some v =>
    cases hg : getServiceItem getUnitId d r (some v) with
    | some k =>
      rw [onDeviceInstanceChanged_found getUnitId d r k (by rw [hv]; exact hg)]
      exact NoDuplicates_updateService d k r
        (getServiceItem_some getUnitId d r _ k hg).2.1 hd
    | none =>
      rw [onDeviceInstanceChanged_created getUnitId d r v hv hg]
      exact NoDuplicates_create_update getUnitId d r v
        (getServiceItem_none getUnitId d r v hg) hd

theorem NoDuplicates_onServiceStateChanged (getUnitId : Int → Int)
    (d : DiagnosticsService) (r : ServiceRoot) (hd : d.NoDuplicates) :
    (onServiceStateChanged getUnitId d r).NoDuplicates := by
  by_cases hoff : r.state = VeQItem.State.Offline
  · cases hg : getServiceItemByName d r with
    | none => rw [onServiceStateChanged_offline_none getUnitId d r hoff hg]; exact hd
    | some k =>
      rw [onServiceStateChanged_offline_found getUnitId d r k hoff hg]
      have hk := (getServiceItemByName_some d r k hg).2
      exact NoDuplicates_updateService d k r (by unfold deviceType; rw [hk]) hd
  · rw [onServiceStateChanged_online getUnitId d r hoff]
    exact NoDuplicates_onDeviceInstanceChanged getUnitId d r hd

theorem NoDuplicates_handle (getUnitId : Int → Int) (d : DiagnosticsService)
    (e : Event) (hd : d.NoDuplicates) : (handle getUnitId d e).NoDuplicates := by
  cases e with
  | deviceInstanceChanged r => exact NoDuplicates_onDeviceInstanceChanged getUnitId d r hd
  | serviceStateChanged r => exact NoDuplicates_onServiceStateChanged getUnitId d r hd

theorem NoDuplicates_run (getUnitId : Int → Int) (events : List Event) :
    ∀ d : DiagnosticsService, d.NoDuplicates → (run getUnitId d events).NoDuplicates := by
  induction events with
  | nil => intro d hd; exact hd
  | cons e es ih =>
    intro d hd
    exact ih (handle getUnitId d e) (NoDuplicates_handle getUnitId d e hd)

/-- C10: in every registry reached from the initial one (no entries, Count = 0)
by any sequence of device-instance-changed and service-state-changed events, no
two entries with index below Count have both the same device type
(`getDeviceType` of their service name) and the same unit id; the unit-id lookup
is a fixed function. -/
theorem reachable_noDuplicates (getUnitId : Int → Int) (events : List Event) :
    ∀ j, j < (run getUnitId init events).mServiceCount → ∀ i, i < j →
      ¬ (DBusService.getDeviceType
            (QVariant.toQString ((run getUnitId init events).services i).ServiceName) =
          DBusService.getDeviceType
            (QVariant.toQString ((run getUnitId init events).services j).ServiceName) ∧
        QVariant.toInt ((run getUnitId init events).services i).UnitId =
          QVariant.toInt ((run getUnitId init events).services j).UnitId) :=
  NoDuplicates_run getUnitId events init (fun j hj => absurd hj (Nat.not_lt_zero j))

/-- Witness of C10: after the three sample events the registry has two entries,
with the same unit id and different device types. -/
theorem reachable_noDuplicates_witness :
    1 < (run (fun v => v) init sampleEvents).mServiceCount ∧
    (0 : Nat) < 1 ∧
    ¬ (DBusService.getDeviceType
          (QVariant.toQString
            ((run (fun v => v) init sampleEvents).services 0).ServiceName) =
        DBusService.getDeviceType
          (QVariant.toQString
            ((run (fun v => v) init sampleEvents).services 1).ServiceName) ∧
      QVariant.toInt ((run (fun v => v) init sampleEvents).services 0).UnitId =
        QVariant.toInt ((run (fun v => v) init sampleEvents).services 1).UnitId) :=
  ⟨by decide, by decide,
   reachable_noDuplicates (fun v => v) sampleEvents 1 (by decide) 0 (by decide)⟩

end DiagnosticsService

/-! ## The two outcomes of a request -/

namespace Backend

/-- C19: `modbusRequest` has exactly one of two outcomes.  Either exactly one
reply is emitted, for the request with the exception code IllegalDataValue or
IllegalFunction set, and no mapping request is submitted; or exactly one mapping
request is submitted, no reply is emitted and the request is left as it was
(exception code and data included).  Never both, never neither. -/
theorem modbusRequest_outcome (r : ADU) :
    (((modbusRequest r).modbusReply = [(modbusRequest r).adu] ∧
        ((modbusRequest r).adu = r.setExceptionCode PDU.ExceptionCode.IllegalDataValue ∨
          (modbusRequest r).adu = r.setExceptionCode PDU.ExceptionCode.IllegalFunction) ∧
        (modbusRequest r).mappingRequest = []) ∧
      ¬ ((modbusRequest r).mappingRequest.length = 1 ∧
        (modbusRequest r).modbusReply = [])) ∨
    (((modbusRequest r).mappingRequest.length = 1 ∧
        (modbusRequest r).modbusReply = [] ∧
        (modbusRequest r).adu = r ∧
        (modbusRequest r).adu.mExceptionCode = r.mExceptionCode ∧
        (modbusRequest r).adu.mData = r.mData) ∧
      ¬ ((modbusRequest r).modbusReply.length = 1 ∧
        (modbusRequest r).mappingRequest = [])) := by
  by_cases hr : r.getFunctionCode = PDU.ReadHoldingRegisters ∨
      r.getFunctionCode = PDU.ReadInputRegisters
  · rw [modbusRequest_of_read r hr]
    by_cases hq : r.getQuantity = 0 ∨ r.getQuantity > 125
    · rw [if_pos hq]
      exact Or.inl ⟨⟨rfl, Or.inl rfl, rfl⟩, fun h => by simp at h⟩
    · rw [if_neg hq]
      exact Or.inr ⟨⟨rfl, rfl, rfl, rfl, rfl⟩, fun h => by simp at h⟩
  · by_cases hs : r.getFunctionCode = PDU.WriteSingleRegister
    · rw [modbusRequest_of_writeSingle r hs]
      exact Or.inr ⟨⟨rfl, rfl, rfl, rfl, rfl⟩, fun h => by simp at h⟩
    · by_cases hm : r.getFunctionCode = PDU.WriteMultipleRegisters
      · rw [modbusRequest_of_writeMultiple r hm]
        by_cases hq : (r.getQuantity = 0 ∨ r.getQuantity > 125) ∨
            r.getByteCount ≠ r.getQuantity * 2
        · rw [if_pos hq]
          exact Or.inl ⟨⟨rfl, Or.inl rfl, rfl⟩, fun h => by simp at h⟩
        · rw [if_neg hq]
          exact Or.inr ⟨⟨rfl, rfl, rfl, rfl, rfl⟩, fun h => by simp at h⟩
      · rw [modbusRequest_of_other r (fun h => hr (Or.inl h)) (fun h => hr (Or.inr h))
          hs hm]
        exact Or.inl ⟨⟨rfl, Or.inr rfl, rfl⟩, fun h => by simp at h⟩

end Backend

/-! ## Service registry: single events -/

namespace DiagnosticsService

/-- C14: when the device-instance value of a service is not valid,
`onDeviceInstanceChanged` and the non-offline branch of `onServiceStateChanged`
leave the registry as it was: no entry is created, `Services/Count` and every
field of every entry are unchanged. -/
theorem invalid_deviceInstance_unchanged (getUnitId : Int → Int)
    (d : DiagnosticsService) (r : ServiceRoot) (hv : r.deviceInstance = none) :
    onDeviceInstanceChanged getUnitId d r = d ∧
    (r.state ≠ VeQItem.State.Offline → onServiceStateChanged getUnitId d r = d) := by
  refine ⟨onDeviceInstanceChanged_invalid getUnitId d r hv, fun h => ?_⟩
  rw [onServiceStateChanged_online getUnitId d r h]
  exact onDeviceInstanceChanged_invalid getUnitId d r hv

/-- Witness of C14: a battery whose device instance is not known yet, on a
registry with one entry. -/
theorem invalid_deviceInstance_unchanged_witness :
    (⟨"com.victronenergy.battery.ttyO7", VeQItem.State.Synchronized, none⟩ :
      ServiceRoot).deviceInstance = none ∧
    onDeviceInstanceChanged (fun v => v) oneBattery
      ⟨"com.victronenergy.battery.ttyO7", VeQItem.State.Synchronized, none⟩ =
        oneBattery ∧
    onServiceStateChanged (fun v => v) oneBattery
      ⟨"com.victronenergy.battery.ttyO7", VeQItem.State.Synchronized, none⟩ =
        oneBattery :=
  ⟨rfl,
   (invalid_deviceInstance_unchanged (fun v => v) oneBattery
      ⟨"com.victronenergy.battery.ttyO7", VeQItem.State.Synchronized, none⟩ rfl).1,
   (invalid_deviceInstance_unchanged (fun v => v) oneBattery
      ⟨"com.victronenergy.battery.ttyO7", VeQItem.State.Synchronized, none⟩ rfl).2
      (by decide)⟩

/-- The lookup by name finds nothing when no entry below the count has the
name. -/
theorem getServiceItemByName_none (d : DiagnosticsService) (r : ServiceRoot)
    (h : ∀ i, i < d.mServiceCount →
      QVariant.toQString (d.services i).ServiceName ≠ r.id) :
    getServiceItemByName d r = none := by
  simp only [getServiceItemByName]
  rw [List.find?_eq_none]
  intro i hi
  have := h i (List.mem_range.mp hi)
  simpa [eq_comm] using this

/-- C12: for a service root that is Offline and whose identifier is the service
name of no entry below the count, `onServiceStateChanged` leaves the registry
as it was, whatever the device-instance value of the service is (also a valid
one whose device type and unit id match an entry). -/
theorem offline_unknown_name_unchanged (getUnitId : Int → Int)
    (d : DiagnosticsService) (r : ServiceRoot)
    (hoff : r.state = VeQItem.State.Offline)
    (hname : ∀ i, i < d.mServiceCount →
      QVariant.toQString (d.services i).ServiceName ≠ r.id) :
    onServiceStateChanged getUnitId d r = d :=
  onServiceStateChanged_offline_none getUnitId d r hoff
    (getServiceItemByName_none d r hname)

/-- Witness of C12: an offline battery with another name, whose valid device
instance gives the device type and unit id of the entry that exists. -/
theorem offline_unknown_name_unchanged_witness :
    (⟨"com.victronenergy.battery.ttyO9", VeQItem.State.Offline, some 5⟩ :
      ServiceRoot).state = VeQItem.State.Offline ∧
    (∀ i, i < oneBattery.mServiceCount →
      QVariant.toQString (oneBattery.services i).ServiceName ≠
        "com.victronenergy.battery.ttyO9") ∧
    getServiceItem (fun v => v) oneBattery
      ⟨"com.victronenergy.battery.ttyO9", VeQItem.State.Offline, some 5⟩ (some 5) =
        some 0 ∧
    onServiceStateChanged (fun v => v) oneBattery
      ⟨"com.victronenergy.battery.ttyO9", VeQItem.State.Offline, some 5⟩ =
        oneBattery :=
  ⟨rfl, by decide, by decide,
   offline_unknown_name_unchanged (fun v => v) oneBattery
     ⟨"com.victronenergy.battery.ttyO9", VeQItem.State.Offline, some 5⟩ rfl
     (by decide)⟩

/-- The registry after `createServiceItem` and `updateService` on the new
entry. -/
theorem created_count (getUnitId : Int → Int) (d : DiagnosticsService)
    (r : ServiceRoot) (v : Int) :
    (updateService (createServiceItem getUnitId d (some v)).1 d.mServiceCount r).mServiceCount =
      d.mServiceCount + 1 := rfl

theorem created_services_new (getUnitId : Int → Int) (d : DiagnosticsService)
    (r : ServiceRoot) (v : Int) :
    (updateService (createServiceItem getUnitId d (some v)).1 d.mServiceCount r).services
        d.mServiceCount =
      { ServiceName := some r.id, UnitId := some (getUnitId v),
        IsActive := some (if r.state = VeQItem.State.Offline then 0 else 1) } := by
  rw [updateService_services_same]
  simp [createServiceItem, setEntry]

theorem created_services_other (getUnitId : Int → Int) (d : DiagnosticsService)
    (r : ServiceRoot) (v : Int) (j : Nat) (h : j ≠ d.mServiceCount) :
    (updateService (createServiceItem getUnitId d (some v)).1 d.mServiceCount r).services j =
      d.services j := by
  rw [updateService_services_other _ _ _ _ h]
  simp [createServiceItem, setEntry, h]

/-- The three things a handler can do: nothing, rewrite the name and activity of
an entry below the count, or create entry number `Services/Count`. -/
theorem onDeviceInstanceChanged_cases (getUnitId : Int → Int) (d : DiagnosticsService)
    (r : ServiceRoot) :
    (r.deviceInstance = none ∧ onDeviceInstanceChanged getUnitId d r = d) ∨
    (∃ k v, r.deviceInstance = some v ∧ k < d.mServiceCount ∧
      d.unitId k = getUnitId v ∧
      onDeviceInstanceChanged getUnitId d r = updateService d k r) ∨
    (∃ v, r.deviceInstance = some v ∧
      onDeviceInstanceChanged getUnitId d r =
        updateService (createServiceItem getUnitId d (some v)).1 d.mServiceCount r) := by
  cases hv : r.deviceInstance with
  | none => exact Or.inl ⟨rfl, onDeviceInstanceChanged_invalid getUnitId d r hv⟩
  | some v =>
    cases hg : getServiceItem getUnitId d r (some v) with
    | some k =>
      have hk := getServiceItem_some getUnitId d r _ k hg
      obtain ⟨w, hw, hu⟩ := hk.2.2
      have hwv : w = v := (Option.some.inj hw).symm
      refine Or.inr (Or.inl ⟨k, v, rfl, hk.1, by rw [hu, hwv], ?_⟩)
      exact onDeviceInstanceChanged_found getUnitId d r k (by rw [hv]; exact hg)
    | none =>
      exact Or.inr (Or.inr ⟨v, rfl, onDeviceInstanceChanged_created getUnitId d r v hv hg⟩)

theorem handle_cases (getUnitId : Int → Int) (d : DiagnosticsService) (e : Event) :
    handle getUnitId d e = d ∨
    (∃ k, k < d.mServiceCount ∧
      handle getUnitId d e = updateService d k e.serviceRoot) ∨
    (∃ v, e.serviceRoot.deviceInstance = some v ∧
      handle getUnitId d e =
        updateService (createServiceItem getUnitId d (some v)).1 d.mServiceCount
          e.serviceRoot) := by
  have hdic : ∀ r : ServiceRoot,
      onDeviceInstanceChanged getUnitId d r = d ∨
      (∃ k, k < d.mServiceCount ∧
        onDeviceInstanceChanged getUnitId d r = updateService d k r) ∨
      (∃ v, r.deviceInstance = some v ∧
        onDeviceInstanceChanged getUnitId d r =
          updateService (createServiceItem getUnitId d (some v)).1 d.mServiceCount r) := by
    intro r
    rcases onDeviceInstanceChanged_cases getUnitId d r with h | ⟨k, v, _, hk, _, h⟩ | ⟨v, hv, h⟩
    · exact Or.inl h.2
    · exact Or.inr (Or.inl ⟨k, hk, h⟩)
    · exact Or.inr (Or.inr ⟨v, hv, h⟩)
  cases e with
  | deviceInstanceChanged r => exact hdic r
  | serviceStateChanged r =>
    have hh : handle getUnitId d (Event.serviceStateChanged r) =
        onServiceStateChanged getUnitId d r := rfl
    have hs : (Event.serviceStateChanged r).serviceRoot = r := rfl
    rw [hh, hs]
    by_cases hoff : r.state = VeQItem.State.Offline
    · cases hg : getServiceItemByName d r with
      | none => exact Or.inl (onServiceStateChanged_offline_none getUnitId d r hoff hg)
      | some k =>
        exact Or.inr (Or.inl ⟨k, (getServiceItemByName_some d r k hg).1,
          onServiceStateChanged_offline_found getUnitId d r k hoff hg⟩)
    · rw [onServiceStateChanged_online getUnitId d r hoff]
      exact hdic r

/-- C17: the registry only grows.  An event leaves `Services/Count` as it was
or adds exactly 1 to it; every entry below the old count is below the new count,
at the same index, with the same unit id; and when the count grew, the new entry
is the one at the old count (with the unit id looked up for the service and the
name of the service) and no other index changed. -/
theorem handle_grows (getUnitId : Int → Int) (d : DiagnosticsService) (e : Event) :
    ((handle getUnitId d e).mServiceCount = d.mServiceCount ∨
      (handle getUnitId d e).mServiceCount = d.mServiceCount + 1) ∧
    (∀ i, i < d.mServiceCount →
      i < (handle getUnitId d e).mServiceCount ∧
      ((handle getUnitId d e).services i).UnitId = (d.services i).UnitId) ∧
    ((handle getUnitId d e).mServiceCount = d.mServiceCount + 1 →
      (∃ v, e.serviceRoot.deviceInstance = some v ∧
        ((handle getUnitId d e).services d.mServiceCount).UnitId =
          some (getUnitId v)) ∧
      ((handle getUnitId d e).services d.mServiceCount).ServiceName =
        some e.serviceRoot.id ∧
      ∀ i, i ≠ d.mServiceCount → (handle getUnitId d e).services i = d.services i) := by
  rcases handle_cases getUnitId d e with h | ⟨k, _, h⟩ | ⟨v, hv, h⟩
  · rw [h]
    exact ⟨Or.inl rfl, fun i hi => ⟨hi, rfl⟩, fun hc => by omega⟩
  · rw [h]
    refine ⟨Or.inl rfl, fun i hi => ⟨hi, ?_⟩, fun hc => ?_⟩
    · by_cases hik : i = k
      · subst hik; rw [updateService_services_same]
      · rw [updateService_services_other d k i _ hik]
    · rw [updateService_count] at hc; omega
  · rw [h]
    refine ⟨Or.inr rfl, fun i hi => ⟨?_, ?_⟩, fun _ => ⟨⟨v, hv, ?_⟩, ?_, ?_⟩⟩
    · rw [created_count]; omega
    · rw [created_services_other getUnitId d _ v i (Nat.ne_of_lt hi)]
    · rw [created_services_new]
    · rw [created_services_new]
    · intro i hi
      exact created_services_other getUnitId d _ v i hi

/-- Witness of C17: a solar charger appears on a registry with one battery; the
count goes from 1 to 2 and the new entry is entry 1. -/
theorem handle_grows_witness :
    (handle (fun v => v) oneBattery
      (Event.deviceInstanceChanged
        ⟨"com.victronenergy.solarcharger.ttyO2", VeQItem.State.Synchronized,
          some 7⟩)).mServiceCount = oneBattery.mServiceCount + 1 ∧
    ((handle (fun v => v) oneBattery
      (Event.deviceInstanceChanged
        ⟨"com.victronenergy.solarcharger.ttyO2", VeQItem.State.Synchronized,
          some 7⟩)).services oneBattery.mServiceCount).ServiceName =
      some "com.victronenergy.solarcharger.ttyO2" ∧
    (0 < oneBattery.mServiceCount ∧
      ((handle (fun v => v) oneBattery
        (Event.deviceInstanceChanged
          ⟨"com.victronenergy.solarcharger.ttyO2", VeQItem.State.Synchronized,
            some 7⟩)).services 0).UnitId = (oneBattery.services 0).UnitId) :=
  ⟨by decide,
   ((handle_grows (fun v => v) oneBattery
      (Event.deviceInstanceChanged
        ⟨"com.victronenergy.solarcharger.ttyO2", VeQItem.State.Synchronized,
          some 7⟩)).2.2 (by decide)).2.1,
   by decide,
   ((handle_grows (fun v => v) oneBattery
      (Event.deviceInstanceChanged
        ⟨"com.victronenergy.solarcharger.ttyO2", VeQItem.State.Synchronized,
          some 7⟩)).2.1 0 (by decide)).2⟩

/-- C16: after `onDeviceInstanceChanged`, or `onServiceStateChanged` for a
service root that is not Offline, has run for a service whose device-instance
value `v` is valid, an entry below the count has the unit id `getUnitId v`, the
identifier of the service root as its service name, and IsActive 0 when the
state of the service root is Offline and 1 otherwise. -/
theorem valid_deviceInstance_entry (getUnitId : Int → Int) (d : DiagnosticsService)
    (r : ServiceRoot) (v : Int) (hv : r.deviceInstance = some v) :
    (∃ k, k < (onDeviceInstanceChanged getUnitId d r).mServiceCount ∧
      QVariant.toInt ((onDeviceInstanceChanged getUnitId d r).services k).UnitId =
        getUnitId v ∧
      ((onDeviceInstanceChanged getUnitId d r).services k).ServiceName = some r.id ∧
      ((onDeviceInstanceChanged getUnitId d r).services k).IsActive =
        some (if r.state = VeQItem.State.Offline then 0 else 1)) ∧
    (r.state ≠ VeQItem.State.Offline →
      ∃ k, k < (onServiceStateChanged getUnitId d r).mServiceCount ∧
        QVariant.toInt ((onServiceStateChanged getUnitId d r).services k).UnitId =
          getUnitId v ∧
        ((onServiceStateChanged getUnitId d r).services k).ServiceName = some r.id ∧
        ((onServiceStateChanged getUnitId d r).services k).IsActive = some 1) := by
  have key : ∃ k, k < (onDeviceInstanceChanged getUnitId d r).mServiceCount ∧
      QVariant.toInt ((onDeviceInstanceChanged getUnitId d r).services k).UnitId =
        getUnitId v ∧
      ((onDeviceInstanceChanged getUnitId d r).services k).ServiceName = some r.id ∧
      ((onDeviceInstanceChanged getUnitId d r).services k).IsActive =
        some (if r.state = VeQItem.State.Offline then 0 else 1) := by
    rcases onDeviceInstanceChanged_cases getUnitId d r with h | ⟨k, w, hw, hk, hu, h⟩ | ⟨w, hw, h⟩
    · rw [hv] at h; exact absurd h.1 (by simp)
    · have hwv : w = v := by rw [hv] at hw; exact (Option.some.inj hw).symm
      subst hwv
      rw [h]
      refine ⟨k, hk, ?_, ?_, ?_⟩
      · rw [updateService_services_same]; exact hu
      · rw [updateService_services_same]
      · rw [updateService_services_same]
    · have hwv : w = v := by rw [hv] at hw; exact (Option.some.inj hw).symm
      subst hwv
      rw [h]
      refine ⟨d.mServiceCount, ?_, ?_, ?_, ?_⟩
      · rw [created_count]; omega
      · rw [created_services_new]; rfl
      · rw [created_services_new]
      · rw [created_services_new]
  refine ⟨key, fun hoff => ?_⟩
  rw [onServiceStateChanged_online getUnitId d r hoff]
  obtain ⟨k, hk, hu, hn, ha⟩ := key
  exact ⟨k, hk, hu, hn, by rw [ha, if_neg hoff]⟩

/-- Witness of C16: a solar charger with device instance 7 on a registry with one
battery. -/
theorem valid_deviceInstance_entry_witness :
    (⟨"com.victronenergy.solarcharger.ttyO2", VeQItem.State.Synchronized, some 7⟩ :
      ServiceRoot).deviceInstance = some 7 ∧
    ∃ k, k < (onServiceStateChanged (fun v => v + 100) oneBattery
        ⟨"com.victronenergy.solarcharger.ttyO2", VeQItem.State.Synchronized,
          some 7⟩).mServiceCount ∧
      QVariant.toInt ((onServiceStateChanged (fun v => v + 100) oneBattery
        ⟨"com.victronenergy.solarcharger.ttyO2", VeQItem.State.Synchronized,
          some 7⟩).services k).UnitId = 107 ∧
      ((onServiceStateChanged (fun v => v + 100) oneBattery
        ⟨"com.victronenergy.solarcharger.ttyO2", VeQItem.State.Synchronized,
          some 7⟩).services k).ServiceName =
        some "com.victronenergy.solarcharger.ttyO2" ∧
      ((onServiceStateChanged (fun v => v + 100) oneBattery
        ⟨"com.victronenergy.solarcharger.ttyO2", VeQItem.State.Synchronized,
          some 7⟩).services k).IsActive = some 1 :=
  ⟨rfl,
   (valid_deviceInstance_entry (fun v => v + 100) oneBattery
      ⟨"com.victronenergy.solarcharger.ttyO2", VeQItem.State.Synchronized, some 7⟩
      7 rfl).2 (by decide)⟩

/-- The lookup by name returns the lowest index below the count whose service
name is the identifier. -/
theorem getServiceItemByName_eq_some_iff (d : DiagnosticsService) (r : ServiceRoot)
    (k : Nat) :
    getServiceItemByName d r = some k ↔
      QVariant.toQString (d.services k).ServiceName = r.id ∧ k < d.mServiceCount ∧
        ∀ i, i < k → QVariant.toQString (d.services i).ServiceName ≠ r.id := by
  simp only [getServiceItemByName, List.find?_range_eq_some, List.mem_range,
    decide_eq_true_eq, Bool.not_eq_true', decide_eq_false_iff_not]
  constructor
  · rintro ⟨h1, h2, h3⟩
    exact ⟨h1.symm, h2, fun i hi h => h3 i hi h.symm⟩
  · rintro ⟨h1, h2, h3⟩
    exact ⟨h1.symm, h2, fun i hi h => h3 i hi h.symm⟩

/-- C20: when a service root is Offline and `k` is the lowest index below the
count whose service name is its identifier, `onServiceStateChanged` sets
IsActive of entry `k` to 0 and writes the same identifier as its service name;
the unit id of entry `k`, `Services/Count` and every other entry are as before,
and the result does not depend on the device-instance value. -/
theorem offline_known_name (getUnitId : Int → Int) (d : DiagnosticsService)
    (r : ServiceRoot) (k : Nat)
    (hoff : r.state = VeQItem.State.Offline)
    (hk : k < d.mServiceCount)
    (hname : QVariant.toQString (d.services k).ServiceName = r.id)
    (hleast : ∀ i, i < k → QVariant.toQString (d.services i).ServiceName ≠ r.id) :
    (onServiceStateChanged getUnitId d r).services k =
      { ServiceName := some r.id, UnitId := (d.services k).UnitId,
        IsActive := some 0 } ∧
    QVariant.toQString ((onServiceStateChanged getUnitId d r).services k).ServiceName =
      QVariant.toQString (d.services k).ServiceName ∧
    (onServiceStateChanged getUnitId d r).mServiceCount = d.mServiceCount ∧
    (∀ j, j ≠ k → (onServiceStateChanged getUnitId d r).services j = d.services j) ∧
    (∀ di : Option Int,
      onServiceStateChanged getUnitId d { r with deviceInstance := di } =
        onServiceStateChanged getUnitId d r) := by
  have hg : getServiceItemByName d r = some k :=
    (getServiceItemByName_eq_some_iff d r k).mpr ⟨hname, hk, hleast⟩
  have hres := onServiceStateChanged_offline_found getUnitId d r k hoff hg
  have hsame : (onServiceStateChanged getUnitId d r).services k =
      { ServiceName := some r.id, UnitId := (d.services k).UnitId,
        IsActive := some 0 } := by
    rw [hres, updateService_services_same, if_pos hoff]
  refine ⟨hsame, ?_, ?_, ?_, ?_⟩
  · rw [hsame, hname]; rfl
  · rw [hres]; rfl
  · intro j hj
    rw [hres]
    exact updateService_services_other d k j r hj
  · intro di
    have hg2 : getServiceItemByName d { r with deviceInstance := di } = some k := hg
    have hoff2 : ({ r with deviceInstance := di } : ServiceRoot).state =
        VeQItem.State.Offline := hoff
    rw [hres, onServiceStateChanged_offline_found getUnitId d
      { r with deviceInstance := di } k hoff2 hg2]
    rfl

/-- Witness of C20: two entries carry the name of the service that goes offline;
entry 0 is set inactive and entry 1 stays as it was. -/
theorem offline_known_name_witness :
    (0 < twoSameName.mServiceCount ∧
      QVariant.toQString (twoSameName.services 0).ServiceName =
        "com.victronenergy.battery.ttyO1" ∧
      QVariant.toQString (twoSameName.services 1).ServiceName =
        "com.victronenergy.battery.ttyO1") ∧
    (onServiceStateChanged (fun v => v) twoSameName
      ⟨"com.victronenergy.battery.ttyO1", VeQItem.State.Offline, none⟩).services 0 =
      ⟨some "com.victronenergy.battery.ttyO1", some 5, some 0⟩ ∧
    (onServiceStateChanged (fun v => v) twoSameName
      ⟨"com.victronenergy.battery.ttyO1", VeQItem.State.Offline, none⟩).services 1 =
      twoSameName.services 1 :=
  ⟨by decide,
   (offline_known_name (fun v => v) twoSameName
      ⟨"com.victronenergy.battery.ttyO1", VeQItem.State.Offline, none⟩ 0
      rfl (by decide) (by decide) (by decide)).1,
   (offline_known_name (fun v => v) twoSameName
      ⟨"com.victronenergy.battery.ttyO1", VeQItem.State.Offline, none⟩ 0
      rfl (by decide) (by decide) (by decide)).2.2.2.1 1 (by decide)⟩

/-- The lookup by device type and unit id returns the lowest index below the
count with that pair. -/
theorem getServiceItem_eq_some_iff (getUnitId : Int → Int) (d : DiagnosticsService)
    (r : ServiceRoot) (v : Int) (k : Nat) :
    getServiceItem getUnitId d r (some v) = some k ↔
      (d.deviceType k = DBusService.getDeviceType r.id ∧ d.unitId k = getUnitId v) ∧
        k < d.mServiceCount ∧
        ∀ i, i < k →
          ¬ (d.deviceType i = DBusService.getDeviceType r.id ∧
            d.unitId i = getUnitId v) := by
  simp only [getServiceItem, List.find?_range_eq_some, List.mem_range,
    Bool.and_eq_true, decide_eq_true_eq, Bool.not_eq_true', Bool.and_eq_false_iff,
    decide_eq_false_iff_not, deviceType, unitId, not_and_or]

theorem getServiceItem_eq_none_iff (getUnitId : Int → Int) (d : DiagnosticsService)
    (r : ServiceRoot) (v : Int) :
    getServiceItem getUnitId d r (some v) = none ↔
      ∀ i, i < d.mServiceCount →
        ¬ (d.deviceType i = DBusService.getDeviceType r.id ∧
          d.unitId i = getUnitId v) := by
  constructor
  · exact getServiceItem_none getUnitId d r v
  · intro h
    simp only [getServiceItem]
    rw [List.find?_eq_none]
    intro i hi
    have := h i (List.mem_range.mp hi)
    simpa [deviceType, unitId] using this

theorem updateService_idem (d : DiagnosticsService) (k : Nat) (r : ServiceRoot) :
    updateService (updateService d k r) k r = updateService d k r := by
  simp only [updateService, setEntry]
  congr 1
  funext j
  by_cases h : j = k
  · simp [h]
  · simp [h]

/-- The lookup finds the same entry again after `updateService` on it. -/
theorem getServiceItem_after_found (getUnitId : Int → Int) (d : DiagnosticsService)
    (r : ServiceRoot) (v : Int) (k : Nat)
    (h : getServiceItem getUnitId d r (some v) = some k) :
    getServiceItem getUnitId (updateService d k r) r (some v) = some k := by
  have hk := (getServiceItem_eq_some_iff getUnitId d r v k).mp h
  rw [getServiceItem_eq_some_iff]
  simp only [updateService_deviceType_of_eq d k _ r hk.1.1, updateService_unitId,
    updateService_count]
  exact hk

/-- The lookup finds the new entry after `createServiceItem` and
`updateService`. -/
theorem getServiceItem_after_created (getUnitId : Int → Int) (d : DiagnosticsService)
    (r : ServiceRoot) (v : Int)
    (h : getServiceItem getUnitId d r (some v) = none) :
    getServiceItem getUnitId
      (updateService (createServiceItem getUnitId d (some v)).1 d.mServiceCount r)
      r (some v) = some d.mServiceCount := by
  have hn := (getServiceItem_eq_none_iff getUnitId d r v).mp h
  rw [getServiceItem_eq_some_iff]
  refine ⟨⟨?_, ?_⟩, ?_, ?_⟩
  · unfold deviceType; rw [created_services_new]; rfl
  · unfold unitId; rw [created_services_new]; rfl
  · rw [created_count]; omega
  · intro i hi
    unfold deviceType unitId
    rw [created_services_other getUnitId d r v i (Nat.ne_of_lt hi)]
    exact hn i hi

/-- C11: registry idempotence.  For a service with a valid device-instance
value, handling the same device-instance-changed event twice in a row leaves the
registry exactly as handling it once does; and when no entry below the count has
the device type and unit id of the service, the two deliveries add exactly 1 to
`Services/Count`, and among the entries below the new count exactly one, the one
at the old count, has that device type and unit id. -/
theorem onDeviceInstanceChanged_twice (getUnitId : Int → Int) (d : DiagnosticsService)
    (r : ServiceRoot) (v : Int) (hv : r.deviceInstance = some v) :
    onDeviceInstanceChanged getUnitId (onDeviceInstanceChanged getUnitId d r) r =
      onDeviceInstanceChanged getUnitId d r ∧
    ((∀ i, i < d.mServiceCount →
        ¬ (d.deviceType i = DBusService.getDeviceType r.id ∧
          d.unitId i = getUnitId v)) →
      (onDeviceInstanceChanged getUnitId
        (onDeviceInstanceChanged getUnitId d r) r).mServiceCount =
          d.mServiceCount + 1 ∧
      ∀ i, i < d.mServiceCount + 1 →
        (((onDeviceInstanceChanged getUnitId
            (onDeviceInstanceChanged getUnitId d r) r).deviceType i =
              DBusService.getDeviceType r.id ∧
          (onDeviceInstanceChanged getUnitId
            (onDeviceInstanceChanged getUnitId d r) r).unitId i = getUnitId v) ↔
          i = d.mServiceCount)) := by
  have hidem : onDeviceInstanceChanged getUnitId
      (onDeviceInstanceChanged getUnitId d r) r =
        onDeviceInstanceChanged getUnitId d r := by
    cases hg : getServiceItem getUnitId d r (some v) with
    | some k =>
      have h1 := onDeviceInstanceChanged_found getUnitId d r k (by rw [hv]; exact hg)
      rw [h1, onDeviceInstanceChanged_found getUnitId _ r k
        (by rw [hv]; exact getServiceItem_after_found getUnitId d r v k hg)]
      exact updateService_idem d k r
    | none =>
      have h1 := onDeviceInstanceChanged_created getUnitId d r v hv hg
      rw [h1, onDeviceInstanceChanged_found getUnitId _ r d.mServiceCount
        (by rw [hv]; exact getServiceItem_after_created getUnitId d r v hg)]
      exact updateService_idem _ _ r
  refine ⟨hidem, fun hnone => ?_⟩
  have hg := (getServiceItem_eq_none_iff getUnitId d r v).mpr hnone
  rw [hidem, onDeviceInstanceChanged_created getUnitId d r v hv hg]
  refine ⟨created_count getUnitId d r v, fun i hi => ⟨fun hp => ?_, fun hi2 => ?_⟩⟩
  · by_contra hne
    have hlt : i < d.mServiceCount := by omega
    unfold deviceType unitId at hp
    rw [created_services_other getUnitId d r v i hne] at hp
    exact hnone i hlt hp
  · subst hi2
    unfold deviceType unitId
    rw [created_services_new]
    exact ⟨rfl, rfl⟩

/-- Witness of C11: a solar charger with device instance 7 delivered twice to a
registry with one battery. -/
theorem onDeviceInstanceChanged_twice_witness :
    (⟨"com.victronenergy.solarcharger.ttyO2", VeQItem.State.Synchronized, some 7⟩ :
      ServiceRoot).deviceInstance = some 7 ∧
    onDeviceInstanceChanged (fun v => v)
      (onDeviceInstanceChanged (fun v => v) oneBattery
        ⟨"com.victronenergy.solarcharger.ttyO2", VeQItem.State.Synchronized, some 7⟩)
      ⟨"com.victronenergy.solarcharger.ttyO2", VeQItem.State.Synchronized, some 7⟩ =
    onDeviceInstanceChanged (fun v => v) oneBattery
      ⟨"com.victronenergy.solarcharger.ttyO2", VeQItem.State.Synchronized, some 7⟩ ∧
    (onDeviceInstanceChanged (fun v => v)
      (onDeviceInstanceChanged (fun v => v) oneBattery
        ⟨"com.victronenergy.solarcharger.ttyO2", VeQItem.State.Synchronized, some 7⟩)
      ⟨"com.victronenergy.solarcharger.ttyO2", VeQItem.State.Synchronized,
        some 7⟩).mServiceCount = oneBattery.mServiceCount + 1 :=
  ⟨rfl,
   (onDeviceInstanceChanged_twice (fun v => v) oneBattery
      ⟨"com.victronenergy.solarcharger.ttyO2", VeQItem.State.Synchronized, some 7⟩
      7 rfl).1,
   ((onDeviceInstanceChanged_twice (fun v => v) oneBattery
      ⟨"com.victronenergy.solarcharger.ttyO2", VeQItem.State.Synchronized, some 7⟩
      7 rfl).2 (by decide)).1⟩

end DiagnosticsService

/-! ## Device type of a service name -/

namespace DBusService

theorem splitDot_ne_nil (cs : List Char) : splitDot cs ≠ [] := by
  cases cs with
  | nil => simp [splitDot]
  | cons c cs =>
    unfold splitDot
    split
    · simp
    · split <;> simp

theorem splitDot_cons (c : Char) (cs : List Char) :
    splitDot (c :: cs) =
      if c = '.' then [] :: splitDot cs
      else
        match splitDot cs with
        | [] => [[c]]
        | w :: ws => (c :: w) :: ws := rfl

/-- The split of the source is the library split of a list on an element. -/
theorem splitDot_eq_splitOn (cs : List Char) : splitDot cs = cs.splitOn '.' := by
  induction cs with
  | nil => rfl
  | cons c cs ih =>
    unfold List.splitOn at ih ⊢
    rw [List.splitOnP_cons, ← ih, splitDot_cons]
    by_cases hc : c = '.'
    · simp [hc]
    · simp only [hc, if_false, beq_iff_eq]
      cases h : splitDot cs with
      | nil => exact absurd h (splitDot_ne_nil cs)
      | cons w ws => rfl

/-- One part more than there are dots. -/
theorem splitDot_length (cs : List Char) :
    (splitDot cs).length = cs.count '.' + 1 := by
  induction cs with
  | nil => rfl
  | cons c cs ih =>
    unfold splitDot
    by_cases hc : c = '.'
    · simp [hc, ih]
    · have hcount : (c :: cs).count '.' = cs.count '.' := by
        rw [List.count_cons]
        simp [hc]
      rw [hcount, if_neg hc]
      cases h : splitDot cs with
      | nil => exact absurd h (splitDot_ne_nil cs)
      | cons w ws =>
        rw [h] at ih
        simpa using ih

/-- C15: `getDeviceType name` is the third element of `name` split on '.'
(empty elements kept) when the split has at least three elements, and "Unknown"
otherwise.  The split has one element more than `name` has dots, so the empty
name and every name with fewer than two dots give "Unknown". -/
theorem getDeviceType_spec (name : String) :
    getDeviceType name =
      (if 3 ≤ (name.data.splitOn '.').length then
        String.mk ((name.data.splitOn '.').getD 2 [])
      else "Unknown") ∧
    (split name).map String.data = name.data.splitOn '.' ∧
    (name.data.splitOn '.').length = name.data.count '.' + 1 ∧
    (name.data.count '.' < 2 → getDeviceType name = "Unknown") ∧
    getDeviceType "" = "Unknown" := by
  have hlen : (name.data.splitOn '.').length = name.data.count '.' + 1 := by
    rw [← splitDot_eq_splitOn]; exact splitDot_length name.data
  have hmain : getDeviceType name =
      (if 3 ≤ (name.data.splitOn '.').length then
        String.mk ((name.data.splitOn '.').getD 2 [])
      else "Unknown") := by
    unfold getDeviceType split
    rw [splitDot_eq_splitOn]
    rcases name.data.splitOn '.' with _ | ⟨a, _ | ⟨b, _ | ⟨c, rest⟩⟩⟩ <;> simp
  refine ⟨hmain, ?_, hlen, ?_, by decide⟩
  · unfold split
    rw [splitDot_eq_splitOn, List.map_map]
    exact List.map_id _
  · intro h
    rw [hmain, if_neg (by omega)]

/-- Witness of C15: a name with one dot. -/
theorem getDeviceType_spec_witness :
    ("com.victronenergy" : String).data.count '.' < 2 ∧
    getDeviceType "com.victronenergy" = "Unknown" ∧
    getDeviceType "com.victronenergy.battery.ttyO1" = "battery" :=
  ⟨by decide, (getDeviceType_spec "com.victronenergy").2.2.2.1 (by decide), by decide⟩

end DBusService

/-! ## The last error and its timer -/

namespace LastError

theorem setError_of_idle (s : LastError) (now : Nat) (error : String)
    (h : s.mLastErrorTimer = none) :
    setError s now error =
      { mLastErrorText := error, mLastErrorTime := now,
        mLastErrorTimer := some (now + 1000), published := s.published } := by
  simp [setError, isActive, start, h]

theorem setError_of_active (s : LastError) (now : Nat) (error : String) (t : Nat)
    (h : s.mLastErrorTimer = some t) :
    setError s now error =
      { mLastErrorText := error, mLastErrorTime := now,
        mLastErrorTimer := some t, published := s.published } := by
  simp [setError, isActive, h]

theorem timeout_of_idle (s : LastError) (now : Nat) (h : s.mLastErrorTimer = none) :
    timeout s now = s := by
  simp [timeout, h]

theorem timeout_of_not_due (s : LastError) (now t : Nat)
    (h : s.mLastErrorTimer = some t) (hlt : now < t) : timeout s now = s := by
  have : ¬ t ≤ now := by omega
  simp [timeout, h, this]

theorem timeout_of_due (s : LastError) (now t : Nat)
    (h : s.mLastErrorTimer = some t) (hle : t ≤ now) :
    timeout s now =
      { mLastErrorText := s.mLastErrorText, mLastErrorTime := s.mLastErrorTime,
        mLastErrorTimer := none,
        published := s.published ++ [(s.mLastErrorText, toTime_t s.mLastErrorTime)] } := by
  simp [timeout, h, hle, onLastErrorTimer]

/-- C18: `setError` records the message and the time, publishes nothing, arms the
timer for 1000 ms when it is not armed and leaves the deadline of an armed
timer as it is; when the timer then fires, the message and the timestamp
published are the ones that `setError` call recorded, and the timer is not
armed afterwards; before the deadline nothing happens. -/
theorem setError_timer (s : LastError) (now : Nat) (error : String) :
    (setError s now error).mLastErrorText = error ∧
    (setError s now error).mLastErrorTime = now ∧
    (setError s now error).published = s.published ∧
    (s.mLastErrorTimer = none →
      (setError s now error).mLastErrorTimer = some (now + 1000)) ∧
    (∀ t, s.mLastErrorTimer = some t →
      (setError s now error).mLastErrorTimer = some t) ∧
    (∀ t T, (setError s now error).mLastErrorTimer = some t → t ≤ T →
      (timeout (setError s now error) T).published =
        s.published ++ [(error, toTime_t now)] ∧
      (timeout (setError s now error) T).mLastErrorTimer = none) ∧
    (∀ t T, (setError s now error).mLastErrorTimer = some t → T < t →
      timeout (setError s now error) T = setError s now error) := by
  cases h : s.mLastErrorTimer with
  | none =>
    rw [setError_of_idle s now error h]
    refine ⟨rfl, rfl, rfl, fun _ => rfl, fun t ht => by simp at ht, ?_, ?_⟩
    · intro t T ht hle
      rw [timeout_of_due _ T t ht hle]
      exact ⟨rfl, rfl⟩
    · intro t T ht hlt
      exact timeout_of_not_due _ T t ht hlt
  | some D =>
    rw [setError_of_active s now error D h]
    refine ⟨rfl, rfl, rfl, fun hn => by simp at hn, fun t ht => ?_, ?_, ?_⟩
    · rw [Option.some.inj ht]
    · intro t T ht hle
      rw [timeout_of_due _ T t ht hle]
      exact ⟨rfl, rfl⟩
    · intro t T ht hlt
      exact timeout_of_not_due _ T t ht hlt

/-- Witness of C18: the timer is due at 1000; a second message at 400 leaves the
deadline, and the firing at 1000 publishes the second message with its time. -/
theorem setError_timer_witness :
    armedAtZero.mLastErrorTimer = some 1000 ∧
    (setError armedAtZero 400 "m1").mLastErrorTimer = some 1000 ∧
    (timeout (setError armedAtZero 400 "m1") 999) = setError armedAtZero 400 "m1" ∧
    (timeout (setError armedAtZero 400 "m1") 1000).published =
      armedAtZero.published ++ [("m1", toTime_t 400)] ∧
    (timeout (setError armedAtZero 400 "m1") 1000).mLastErrorTimer = none :=
  ⟨by decide,
   (setError_timer armedAtZero 400 "m1").2.2.2.2.1 1000 (by decide),
   (setError_timer armedAtZero 400 "m1").2.2.2.2.2.2 1000 999 (by decide) (by decide),
   (setError_timer armedAtZero 400 "m1").2.2.2.2.2.1 1000 1000 (by decide) (by decide)⟩

/-- Two critical messages on a state whose timer is not armed. -/
theorem two_criticals_of_idle (s : LastError) (t1 t2 : Nat) (m1 m2 : String)
    (h : s.mLastErrorTimer = none) (hclose : t2 < t1 + 1000) :
    critical (critical s t1 m1) t2 m2 =
      { mLastErrorText := m2, mLastErrorTime := t2,
        mLastErrorTimer := some (t1 + 1000), published := s.published } := by
  unfold critical
  rw [timeout_of_idle s t1 h, setError_of_idle s t1 m1 h,
    timeout_of_not_due _ t2 (t1 + 1000) rfl hclose,
    setError_of_active _ t2 m2 (t1 + 1000) rfl]

/-- Two critical messages on a state whose timer is armed and due after both. -/
theorem two_criticals_of_active (s : LastError) (t1 t2 D : Nat) (m1 m2 : String)
    (h : s.mLastErrorTimer = some D) (h12 : t1 ≤ t2) (hD : t2 < D) :
    critical (critical s t1 m1) t2 m2 =
      { mLastErrorText := m2, mLastErrorTime := t2,
        mLastErrorTimer := some D, published := s.published } := by
  unfold critical
  rw [timeout_of_not_due s t1 D h (by omega), setError_of_active s t1 m1 D h,
    timeout_of_not_due _ t2 D rfl hD, setError_of_active _ t2 m2 D rfl]

/-- C13, as stated, fails: a message at clock 0 arms the timer for 1000; the
messages "m1" at 900 and "m2" at 1100 are less than one second apart, yet the
firing at 1000 publishes "m1" and the firing at 2100 publishes "m2": two
updates, the first of which carries the earlier message. -/
theorem critical_twice_counterexample :
    armedAtZero = critical init 0 "m0" ∧
    armedAtZero.published = [] ∧
    (900 : Nat) ≤ 1100 ∧ (1100 : Nat) < 900 + 1000 ∧
    (critical (critical armedAtZero 900 "m1") 1100 "m2").published = [("m1", 0)] ∧
    (timeout (critical (critical armedAtZero 900 "m1") 1100 "m2") 2100).published =
      [("m1", 0), ("m2", 1)] := by
  decide

/-- C13, amended: two critical messages `m1` at `t1` and then `m2` at `t2`, less
than one second apart, with no deadline of an armed timer after `t1` and up to
`t2` (so always when the timer is not armed when `m1` arrives).  Then the timer
is armed after `m2`, due after `t2`; nothing is published between the arrival of
`m1` and the deadline; and the firing publishes exactly one update, which
carries `m2` and its time, and disarms the timer.  `m1` is not published. -/
theorem critical_twice (s : LastError) (t1 t2 : Nat) (m1 m2 : String)
    (h12 : t1 ≤ t2) (hclose : t2 < t1 + 1000)
    (hnofire : ∀ D, s.mLastErrorTimer = some D → D ≤ t1 ∨ t2 < D) :
    ∃ D, (critical (critical s t1 m1) t2 m2).mLastErrorTimer = some D ∧ t2 < D ∧
      (critical (critical s t1 m1) t2 m2).published = (timeout s t1).published ∧
      (∀ T, T < D →
        (timeout (critical (critical s t1 m1) t2 m2) T).published =
          (timeout s t1).published) ∧
      (∀ T, D ≤ T →
        (timeout (critical (critical s t1 m1) t2 m2) T).published =
          (timeout s t1).published ++ [(m2, toTime_t t2)] ∧
        (timeout (critical (critical s t1 m1) t2 m2) T).mLastErrorTimer = none) := by
  have hsame : critical (critical s t1 m1) t2 m2 =
      critical (critical (timeout s t1) t1 m1) t2 m2 := by
    have hidem : timeout (timeout s t1) t1 = timeout s t1 := by
      cases h : s.mLastErrorTimer with
      | none => rw [timeout_of_idle s t1 h, timeout_of_idle s t1 h]
      | some D0 =>
        by_cases hd : D0 ≤ t1
        · rw [timeout_of_due s t1 D0 h hd]
          exact timeout_of_idle _ t1 rfl
        · rw [timeout_of_not_due s t1 D0 h (by omega),
            timeout_of_not_due s t1 D0 h (by omega)]
    unfold critical
    rw [hidem]
  have hidle : ∀ s0 : LastError, s0.mLastErrorTimer = none →
      ∃ D, (critical (critical s0 t1 m1) t2 m2).mLastErrorTimer = some D ∧ t2 < D ∧
        (critical (critical s0 t1 m1) t2 m2).published = s0.published ∧
        (∀ T, T < D →
          (timeout (critical (critical s0 t1 m1) t2 m2) T).published = s0.published) ∧
        (∀ T, D ≤ T →
          (timeout (critical (critical s0 t1 m1) t2 m2) T).published =
            s0.published ++ [(m2, toTime_t t2)] ∧
          (timeout (critical (critical s0 t1 m1) t2 m2) T).mLastErrorTimer = none) := by
    intro s0 h0
    rw [two_criticals_of_idle s0 t1 t2 m1 m2 h0 hclose]
    refine ⟨t1 + 1000, rfl, hclose, rfl, fun T hT => ?_, fun T hT => ?_⟩
    · rw [timeout_of_not_due _ T (t1 + 1000) rfl hT]
    · rw [timeout_of_due _ T (t1 + 1000) rfl hT]
      exact ⟨rfl, rfl⟩
  cases h : s.mLastErrorTimer with
  | none =>
    rw [timeout_of_idle s t1 h]
    exact hidle s h
  | some D0 =>
    by_cases hd : D0 ≤ t1
    · rw [hsame]
      exact hidle (timeout s t1) (by rw [timeout_of_due s t1 D0 h hd])
    · have hD : t2 < D0 := by
        rcases hnofire D0 h with h1 | h1
        · exact absurd h1 hd
        · exact h1
      rw [timeout_of_not_due s t1 D0 h (by omega),
        two_criticals_of_active s t1 t2 D0 m1 m2 h h12 hD]
      refine ⟨D0, rfl, hD, rfl, fun T hT => ?_, fun T hT => ?_⟩
      · rw [timeout_of_not_due _ T D0 rfl hT]
      · rw [timeout_of_due _ T D0 rfl hT]
        exact ⟨rfl, rfl⟩

/-- Witness of C13, amended: the messages at 900 and 1100 on the initial state,
whose timer is not armed. -/
theorem critical_twice_witness :
    (900 : Nat) ≤ 1100 ∧ (1100 : Nat) < 900 + 1000 ∧
    init.mLastErrorTimer = none ∧
    (timeout (critical (critical init 900 "m1") 1100 "m2") 1900).published =
      [("m2", 1)] ∧
    ∃ D, (critical (critical init 900 "m1") 1100 "m2").mLastErrorTimer = some D ∧
      1100 < D ∧
      (critical (critical init 900 "m1") 1100 "m2").published =
        (timeout init 900).published ∧
      (∀ T, T < D →
        (timeout (critical (critical init 900 "m1") 1100 "m2") T).published =
          (timeout init 900).published) ∧
      (∀ T, D ≤ T →
        (timeout (critical (critical init 900 "m1") 1100 "m2") T).published =
          (timeout init 900).published ++ [("m2", toTime_t 1100)] ∧
        (timeout (critical (critical init 900 "m1") 1100 "m2") T).mLastErrorTimer =
          none) :=
  ⟨by decide, by decide, rfl, by decide,
   critical_twice init 900 1100 "m1" "m2" (by decide) (by decide)
     (fun D h => by simp [init] at h)⟩

end LastError
